import Mathlib

/-!
Verification of the single-file SOP validator and renderer (sop_single.py).

The development shallowly embeds the program: JSON payloads become an
inductive tree, the embedded JSON-Schema (the SCHEMA_JSON constant) becomes
a family of node checkers producing structured errors with instance paths,
mirroring the Draft 2020-12 keyword semantics used by the program, and the
rendering pipeline becomes pure functions over typed section records.
-/

/-- Model of a parsed JSON value (the payload tree handed to
`validate_payload` after `json.loads`). Numbers are modelled as rationals,
which identifies `1` and `1.0` exactly as Python equality does. -/
inductive Json where
  | null
  | bool (b : Bool)
  | num (q : Rat)
  | str (s : String)
  | arr (xs : List Json)
  | obj (kvs : List (String × Json))

mutual

/-- Structural equality of JSON values, as used by the uniqueItems keyword.
Note: Python dict equality is key-order independent; this model compares
object members in order, which is adequate here because the only
uniqueItems arrays in the schema hold enum strings. -/
def jsonBEq : Json → Json → Bool
  | Json.null, Json.null => true
  | Json.bool a, Json.bool b => a == b
  | Json.num a, Json.num b => a == b
  | Json.str a, Json.str b => a == b
  | Json.arr a, Json.arr b => jsonsBEq a b
  | Json.obj a, Json.obj b => jsonKVsBEq a b
  | _, _ => false

/-- Elementwise structural equality of JSON arrays. -/
def jsonsBEq : List Json → List Json → Bool
  | [], [] => true
  | a :: as, b :: bs => jsonBEq a b && jsonsBEq as bs
  | _, _ => false

/-- Memberwise structural equality of JSON objects. -/
def jsonKVsBEq : List (String × Json) → List (String × Json) → Bool
  | [], [] => true
  | (k1, v1) :: as, (k2, v2) :: bs => k1 == k2 && jsonBEq v1 v2 && jsonKVsBEq as bs
  | _, _ => false

end

/-- One segment of an instance path: an object property name or an array
index (the elements of e.path on a jsonschema ValidationError). -/
inductive PathSeg where
  | key (s : String)
  | idx (n : Nat)
deriving DecidableEq, Repr

/-- Kind of structural violation, mirroring the schema keyword that failed. -/
inductive VKind where
  | typeErr (expected : String)
  | requiredErr (prop : String)
  | additionalPropsErr (extras : List String)
  | enumErr
  | patternErr
  | minLengthErr (n : Nat)
  | minItemsErr (n : Nat)
  | uniqueItemsErr
  | minimumErr
  | maximumErr
  | containsErr
deriving DecidableEq, Repr

/-- A structural validation error: instance path plus violation kind. -/
structure VErr where
  path : List PathSeg
  kind : VKind
deriving DecidableEq, Repr

/-- Strict lexicographic comparison of code-point lists, the Python string
comparison used when sorting error paths. -/
def strLtB : List Char → List Char → Bool
  | [], [] => false
  | [], _ :: _ => true
  | _ :: _, [] => false
  | a :: as, b :: bs => if a = b then strLtB as bs else decide (a.toNat < b.toNat)

/-- Strict comparison of path segments. Python never actually compares an
index with a property name (that would need one instance node to be both an
array and an object); the mixed cases are completed arbitrarily. -/
def segLtB : PathSeg → PathSeg → Bool
  | PathSeg.idx m, PathSeg.idx n => decide (m < n)
  | PathSeg.idx _, PathSeg.key _ => true
  | PathSeg.key _, PathSeg.idx _ => false
  | PathSeg.key a, PathSeg.key b => strLtB a.data b.data

/-- Strict lexicographic comparison of instance paths, the model of the
sort key list(e.path) used in `validate_payload`. -/
def pathLtB : List PathSeg → List PathSeg → Bool
  | _, [] => false
  | [], _ :: _ => true
  | a :: as, b :: bs => if a = b then pathLtB as bs else segLtB a b

/-- Non-strict comparison of errors by path, used with a stable sort to
model Python sorted with key list(e.path). -/
def errLe (a b : VErr) : Bool := !(pathLtB b.path a.path)

/-- The comparison of errors as a decidable relation. -/
def errLEP (a b : VErr) : Prop := errLe a b = true

instance errLEP.instDecidableRel : DecidableRel errLEP := fun a b => Bool.decEq (errLe a b) true

/-- Model of "sep".join(parts) in Python. -/
def joinSep (sep : String) : List String → String
  | [] => ""
  | [a] => a
  | a :: rest => a ++ sep ++ joinSep sep rest

/-- Concatenation of a list of strings. -/
def concatList : List String → String
  | [] => ""
  | a :: l => a ++ concatList l

/-- Status-code-to-symbol table STATUS_EMOJI from the source. -/
def STATUS_EMOJI : List (String × String) :=
  [("OK", "✅"), ("ATTN", "⚠️"), ("FAIL", "❌"), ("TBD", "TBD"), ("FYI", "FYI")]

/-- Lookup in STATUS_EMOJI. The source indexes the dict directly; the
renderer is only ever handed validated enum members, so the default is
never reached on validated data. -/
def statusEmoji (s : String) : String := (STATUS_EMOJI.lookup s).getD ""

/-- Canonical-key-to-flag table REGION_FLAGS from the source. -/
def REGION_FLAGS : List (String × String) :=
  [("USA", "🇺🇸"), ("EU", "🇪🇺"), ("UK", "🇬🇧"), ("CA", "🇨🇦"), ("OTHER", "🌐")]

/-- Alias-to-canonical-key table REGION_ALIASES from the source. -/
def REGION_ALIASES : List (String × String) :=
  [("US", "USA"), ("UNITED STATES", "USA"), ("EUROPEAN UNION", "EU"),
   ("UNITED KINGDOM", "UK"), ("CANADA", "CA")]

/-- Whitespace test of Python str.strip (ASCII model). -/
def pyCharWs (c : Char) : Bool :=
  c = ' ' || c = '\t' || c = '\n' || c = '\r' || c = '\x0b' || c = '\x0c'

/-- Model of Python str.strip on a character list: drop leading and
trailing whitespace. -/
def trimChars (l : List Char) : List Char :=
  ((l.dropWhile pyCharWs).reverse.dropWhile pyCharWs).reverse

/-- Model of Python str.strip. -/
def pyStrip (s : String) : String := String.mk (trimChars s.data)

/-- Model of Python str.upper (ASCII model). -/
def pyUpper (s : String) : String := String.mk (s.data.map Char.toUpper)

/-- Model of Python replace of every period with the empty string: drop
every period character. -/
def removeDots (s : String) : String :=
  String.mk (s.data.filter (fun c => !(c = '.')))

/-- Normalization of a raw region label as in `_format_regions_with_flags`:
trim whitespace, upper-case, strip periods, then resolve through the alias
table. -/
def normalizeRegionKey (r : String) : String :=
  let key := removeDots (pyUpper (pyStrip r))
  (REGION_ALIASES.lookup key).getD key

/-- Flag symbol chosen for one raw region label: flag-table lookup on the
normalized key, falling back to the OTHER entry on absence. -/
def regionFlag (r : String) : String :=
  (REGION_FLAGS.lookup (normalizeRegionKey r)).getD ((REGION_FLAGS.lookup "OTHER").getD "")

/-- Model of `_format_regions_with_flags`: each label is rendered as the
flag symbol, a space, and the original label, the whole cell stripped, and
the cells joined with a comma and a space. -/
def _format_regions_with_flags (regions : List String) : String :=
  joinSep ", " (regions.map (fun r => pyStrip (regionFlag r ++ " " ++ r)))

/-- Emit one error unless the keyword check passed. -/
def eguard (ok : Bool) (p : List PathSeg) (k : VKind) : List VErr :=
  if ok then [] else [⟨p, k⟩]

/-- Type test for the JSON string type. -/
def isStr : Json → Bool
  | Json.str _ => true
  | _ => false

/-- Type test for the JSON number type. -/
def isNum : Json → Bool
  | Json.num _ => true
  | _ => false

/-- Type test for the JSON integer type (a number with zero fractional
part, as in Draft 2020-12). -/
def isInt : Json → Bool
  | Json.num q => q.den == 1
  | _ => false

/-- Type test for the JSON boolean type. -/
def isBool : Json → Bool
  | Json.bool _ => true
  | _ => false

/-- minLength keyword: applies only to string instances. -/
def strMinLenOk (n : Nat) : Json → Bool
  | Json.str s => decide (n ≤ s.length)
  | _ => true

/-- enum keyword for the string enumerations of the schema: membership is
checked on the raw instance, so a non-string instance is never a member. -/
def strEnumOk (vals : List String) : Json → Bool
  | Json.str s => vals.contains s
  | _ => false

/-- pattern keyword: applies only to string instances. -/
def strPatOk (f : String → Bool) : Json → Bool
  | Json.str s => f s
  | _ => true

/-- minimum keyword: applies only to number instances. -/
def numMinOk (m : Rat) : Json → Bool
  | Json.num q => decide (m ≤ q)
  | _ => true

/-- maximum keyword: applies only to number instances. -/
def numMaxOk (m : Rat) : Json → Bool
  | Json.num q => decide (q ≤ m)
  | _ => true

/-- Checker for a plain string node. -/
def checkString (p : List PathSeg) (j : Json) : List VErr :=
  eguard (isStr j) p (VKind.typeErr "string")

/-- Conformance for a plain string node. -/
def confString (j : Json) : Bool := isStr j

/-- Checker for a string node with a minLength bound. -/
def checkStringMin (n : Nat) (p : List PathSeg) (j : Json) : List VErr :=
  eguard (isStr j) p (VKind.typeErr "string") ++ eguard (strMinLenOk n j) p (VKind.minLengthErr n)

/-- Conformance for a string node with a minLength bound. -/
def confStringMin (n : Nat) (j : Json) : Bool := isStr j && strMinLenOk n j

/-- Checker for a string node with an enum constraint. -/
def checkEnumNode (vals : List String) (p : List PathSeg) (j : Json) : List VErr :=
  eguard (isStr j) p (VKind.typeErr "string") ++ eguard (strEnumOk vals j) p VKind.enumErr

/-- Conformance for a string node with an enum constraint. -/
def confEnumNode (vals : List String) (j : Json) : Bool := isStr j && strEnumOk vals j

/-- Checker for a string node with a pattern constraint. -/
def checkPatternNode (f : String → Bool) (p : List PathSeg) (j : Json) : List VErr :=
  eguard (isStr j) p (VKind.typeErr "string") ++ eguard (strPatOk f j) p VKind.patternErr

/-- Conformance for a string node with a pattern constraint. -/
def confPatternNode (f : String → Bool) (j : Json) : Bool := isStr j && strPatOk f j

/-- Checker for a number node with minimum 0. -/
def checkNumberMin0 (p : List PathSeg) (j : Json) : List VErr :=
  eguard (isNum j) p (VKind.typeErr "number") ++ eguard (numMinOk 0 j) p VKind.minimumErr

/-- Conformance for a number node with minimum 0. -/
def confNumberMin0 (j : Json) : Bool := isNum j && numMinOk 0 j

/-- Checker for a number node with minimum 0 and maximum 100. -/
def checkNumberMin0Max100 (p : List PathSeg) (j : Json) : List VErr :=
  eguard (isNum j) p (VKind.typeErr "number") ++ eguard (numMinOk 0 j) p VKind.minimumErr ++
    eguard (numMaxOk 100 j) p VKind.maximumErr

/-- Conformance for a number node with minimum 0 and maximum 100. -/
def confNumberMin0Max100 (j : Json) : Bool := isNum j && numMinOk 0 j && numMaxOk 100 j

/-- Checker for an integer node with minimum 0. -/
def checkIntegerMin0 (p : List PathSeg) (j : Json) : List VErr :=
  eguard (isInt j) p (VKind.typeErr "integer") ++ eguard (numMinOk 0 j) p VKind.minimumErr

/-- Conformance for an integer node with minimum 0. -/
def confIntegerMin0 (j : Json) : Bool := isInt j && numMinOk 0 j

/-- Checker for a boolean node. -/
def checkBoolean (p : List PathSeg) (j : Json) : List VErr :=
  eguard (isBool j) p (VKind.typeErr "boolean")

/-- Conformance for a boolean node. -/
def confBoolean (j : Json) : Bool := isBool j

/-- Model of the Python regex anchor pair on search: a dollar also matches
just before one trailing newline, so one trailing newline is discounted
before the full match. -/
def stripFinalNewlineChars (l : List Char) : List Char :=
  if l.getLast? = some '\n' then l.dropLast else l

/-- Full match of one or more decimal digits (ASCII model of a digit
class atom). -/
def digits1 (l : List Char) : Bool :=
  !l.isEmpty && l.all Char.isDigit

/-- Split of a character list at every occurrence of a separator, the model
of a regex alternation over fixed-width separated runs. -/
def splitOnChar (sep : Char) : List Char → List Char → List (List Char)
  | [], acc => [acc.reverse]
  | c :: rest, acc =>
      if c = sep then acc.reverse :: splitOnChar sep rest []
      else splitOnChar sep rest (c :: acc)

/-- Pattern for version: three dot-separated nonempty digit runs. -/
def matchesSemver (s : String) : Bool :=
  match splitOnChar '.' (stripFinalNewlineChars s.data) [] with
  | [a, b, c] => digits1 a && digits1 b && digits1 c
  | _ => false

/-- Pattern for due_date: the literal TBD, or digit runs of width 4-2-2
separated by dashes. -/
def matchesDueDate (s : String) : Bool :=
  let t := stripFinalNewlineChars s.data
  t == "TBD".data ||
    (match splitOnChar '-' t [] with
     | [y, m, d] =>
         digits1 y && decide (y.length = 4) && digits1 m && decide (m.length = 2) &&
           digits1 d && decide (d.length = 2)
     | _ => false)

/-- Pattern for encoded_digits: one or more characters each a digit or X. -/
def matchesEncodedDigits (s : String) : Bool :=
  let t := stripFinalNewlineChars s.data
  !t.isEmpty && t.all (fun c => c.isDigit || c = 'X')

/-- Pattern for a visual snapshot id: G, a dash, then exactly three
digits. -/
def matchesSnapshotId (s : String) : Bool :=
  match stripFinalNewlineChars s.data with
  | 'G' :: '-' :: rest => decide (rest.length = 3) && rest.all Char.isDigit
  | _ => false

/-- Property names of an object instance that the closed shape does not
declare, in instance order. -/
def extraKeys (declared : List String) (kvs : List (String × Json)) : List String :=
  (kvs.map Prod.fst).filter (fun k => !(declared.contains k))

/-- additionalProperties false: one error listing every undeclared
property, at the path of the object itself. -/
def addlErrs (declared : List String) (p : List PathSeg) (kvs : List (String × Json)) : List VErr :=
  if (extraKeys declared kvs).isEmpty then []
  else [⟨p, VKind.additionalPropsErr (extraKeys declared kvs)⟩]

/-- additionalProperties conformance. -/
def addlOk (declared : List String) (kvs : List (String × Json)) : Bool :=
  (extraKeys declared kvs).isEmpty

/-- required keyword: one error per missing required property, in
declaration order, at the path of the object itself. -/
def reqErrs (required : List String) (p : List PathSeg) (kvs : List (String × Json)) : List VErr :=
  required.filterMap (fun r =>
    if (kvs.lookup r).isSome then none else some ⟨p, VKind.requiredErr r⟩)

/-- required conformance. -/
def reqOk (required : List String) (kvs : List (String × Json)) : Bool :=
  required.all (fun r => (kvs.lookup r).isSome)

/-- properties keyword for one declared property: recurse into the value
when present, extending the path with the property name. -/
def propErr (name : String) (f : List PathSeg → Json → List VErr) (p : List PathSeg)
    (kvs : List (String × Json)) : List VErr :=
  match kvs.lookup name with
  | some v => f (p ++ [PathSeg.key name]) v
  | none => []

/-- properties conformance for one declared property. -/
def propOk (name : String) (g : Json → Bool) (kvs : List (String × Json)) : Bool :=
  match kvs.lookup name with
  | some v => g v
  | none => true

/-- items keyword: recurse into every element in order, extending the path
with the element index. -/
def childErrs (f : List PathSeg → Json → List VErr) (p : List PathSeg) :
    Nat → List Json → List VErr
  | _, [] => []
  | i, x :: xs => f (p ++ [PathSeg.idx i]) x ++ childErrs f p (i + 1) xs

/-- uniqueItems keyword: no two elements structurally equal. -/
def jsonNoDup : List Json → Bool
  | [] => true
  | x :: xs => !(xs.any (fun y => jsonBEq x y)) && jsonNoDup xs

/-- Allowed region values (regionEnum in the schema defs). -/
def regionEnumValues : List String := ["USA", "EU", "UK", "CA", "AU", "Other"]

/-- Allowed language values (languageEnum). -/
def languageEnumValues : List String := ["EN", "FR", "ES", "DE", "IT", "PT", "NL", "Other"]

/-- Allowed status-code values (statusEnum). -/
def statusEnumValues : List String := ["OK", "ATTN", "FAIL", "TBD", "FYI"]

/-- Allowed risk-level values (riskLevelEnum). -/
def riskLevelEnumValues : List String := ["Low", "Medium", "High", "Prohibited"]

/-- Allowed action values (actionEnum). -/
def actionEnumValues : List String := ["Keep", "Modify", "Remove", "Escalate"]

/-- Allowed measurement-method values (methodEnum). -/
def methodEnumValues : List String := ["Bitmap", "Vector", "OCR", "Manual"]

/-- Allowed symbology values (symbologyEnum). -/
def symbologyEnumValues : List String := ["UPC-A", "EAN-13", "Code128", "QR", "DataMatrix", "Other"]

/-- Allowed scan-test values. -/
def scanTestEnumValues : List String := ["Pass", "Fail", "N/A"]

/-- Allowed status-after-fix values. -/
def statusAfterFixEnumValues : List String := ["TBD", "Resolved", "Rejected"]

/-- Allowed constraint-source values. -/
def sourceEnumValues : List String := ["Retailer", "Regulatory", "Brand", "Legal", "Other"]

/-- Allowed attachment-type values (the type field of fileItem). -/
def fileTypeEnumValues : List String := ["Copy Document", "Artwork", "Other"]

/-- Checker for one attachment entry (fileItem in the schema defs). -/
def checkFileItem (p : List PathSeg) (j : Json) : List VErr :=
  match j with
  | Json.obj kvs =>
      addlErrs ["type", "filename", "status_code", "note"] p kvs ++
      reqErrs ["type", "filename", "status_code"] p kvs ++
      propErr "type" (checkEnumNode fileTypeEnumValues) p kvs ++
      propErr "filename" (checkStringMin 1) p kvs ++
      propErr "status_code" (checkEnumNode statusEnumValues) p kvs ++
      propErr "note" checkString p kvs
  | _ => [⟨p, VKind.typeErr "object"⟩]

/-- Conformance for one attachment entry. -/
def confFileItem (j : Json) : Bool :=
  match j with
  | Json.obj kvs =>
      addlOk ["type", "filename", "status_code", "note"] kvs &&
      reqOk ["type", "filename", "status_code"] kvs &&
      propOk "type" (confEnumNode fileTypeEnumValues) kvs &&
      propOk "filename" (confStringMin 1) kvs &&
      propOk "status_code" (confEnumNode statusEnumValues) kvs &&
      propOk "note" confString kvs
  | _ => false

/-- Match test for the contains subschema of step2: an object that has the
type property with exactly the given constant value. -/
def fileTypeConstOk (c : String) : Json → Bool
  | Json.obj kvs =>
      (kvs.lookup "type").isSome &&
      (match kvs.lookup "type" with
       | some v => jsonBEq v (Json.str c)
       | none => true)
  | _ => false

/-- Model of the contains keyword as applied by the allOf entries of step2:
the keyword constrains only array instances and is skipped on any other
type, exactly as in Draft 2020-12. The step2 instance it is applied to is
an object, so on schema-typed data this check never fires. -/
def containsErrs (c : String) (p : List PathSeg) (j : Json) : List VErr :=
  match j with
  | Json.arr xs => if xs.any (fileTypeConstOk c) then [] else [⟨p, VKind.containsErr⟩]
  | _ => []

/-- Conformance for one contains entry of step2. -/
def containsOk (c : String) (j : Json) : Bool :=
  match j with
  | Json.arr xs => xs.any (fileTypeConstOk c)
  | _ => true

/-- Checker for the regions arrays (minItems 1, uniqueItems, items
regionEnum), used for regions_in_scope and regions_impacted. -/
def checkRegionsArray (p : List PathSeg) (j : Json) : List VErr :=
  match j with
  | Json.arr xs =>
      eguard (decide (1 ≤ xs.length)) p (VKind.minItemsErr 1) ++
      eguard (jsonNoDup xs) p VKind.uniqueItemsErr ++
      childErrs (checkEnumNode regionEnumValues) p 0 xs
  | _ => [⟨p, VKind.typeErr "array"⟩]

/-- Conformance for the regions arrays. -/
def confRegionsArray (j : Json) : Bool :=
  match j with
  | Json.arr xs =>
      decide (1 ≤ xs.length) && jsonNoDup xs && xs.all (confEnumNode regionEnumValues)
  | _ => false

/-- Checker for an array node whose only constraint is an element shape. -/
def checkArrayOf (f : List PathSeg → Json → List VErr) (p : List PathSeg) (j : Json) : List VErr :=
  match j with
  | Json.arr xs => childErrs f p 0 xs
  | _ => [⟨p, VKind.typeErr "array"⟩]

/-- Conformance for an array node whose only constraint is an element
shape. -/
def confArrayOf (g : Json → Bool) (j : Json) : Bool :=
  match j with
  | Json.arr xs => xs.all g
  | _ => false

/-- Checker for the files array of step2 (items fileItem, minItems 2, in
schema keyword order). -/
def checkFilesArray (p : List PathSeg) (j : Json) : List VErr :=
  match j with
  | Json.arr xs =>
      childErrs checkFileItem p 0 xs ++ eguard (decide (2 ≤ xs.length)) p (VKind.minItemsErr 2)
  | _ => [⟨p, VKind.typeErr "array"⟩]

/-- Conformance for the files array of step2. -/
def confFilesArray (j : Json) : Bool :=
  match j with
  | Json.arr xs => xs.all confFileItem && decide (2 ≤ xs.length)
  | _ => false

/-- Checker for step1, the project header object. -/
def checkStep1 (p : List PathSeg) (j : Json) : List VErr :=
  match j with
  | Json.obj kvs =>
      addlErrs ["project_name", "round_version", "regions_in_scope", "due_date"] p kvs ++
      reqErrs ["project_name", "round_version", "regions_in_scope", "due_date"] p kvs ++
      propErr "project_name" (checkStringMin 1) p kvs ++
      propErr "round_version" (checkStringMin 1) p kvs ++
      propErr "regions_in_scope" checkRegionsArray p kvs ++
      propErr "due_date" (checkPatternNode matchesDueDate) p kvs
  | _ => [⟨p, VKind.typeErr "object"⟩]

/-- Conformance for step1. -/
def confStep1 (j : Json) : Bool :=
  match j with
  | Json.obj kvs =>
      addlOk ["project_name", "round_version", "regions_in_scope", "due_date"] kvs &&
      reqOk ["project_name", "round_version", "regions_in_scope", "due_date"] kvs &&
      propOk "project_name" (confStringMin 1) kvs &&
      propOk "round_version" (confStringMin 1) kvs &&
      propOk "regions_in_scope" confRegionsArray kvs &&
      propOk "due_date" (confPatternNode matchesDueDate) kvs
  | _ => false

/-- Checker for step2, the attachment-list object. The two allOf contains
entries are applied to the step2 instance itself, exactly where the schema
places them. -/
def checkStep2 (p : List PathSeg) (j : Json) : List VErr :=
  match j with
  | Json.obj kvs =>
      addlErrs ["files"] p kvs ++
      reqErrs ["files"] p kvs ++
      propErr "files" checkFilesArray p kvs ++
      containsErrs "Copy Document" p (Json.obj kvs) ++
      containsErrs "Artwork" p (Json.obj kvs)
  | _ => [⟨p, VKind.typeErr "object"⟩]

/-- Conformance for step2. -/
def confStep2 (j : Json) : Bool :=
  match j with
  | Json.obj kvs =>
      addlOk ["files"] kvs &&
      reqOk ["files"] kvs &&
      propOk "files" confFilesArray kvs &&
      containsOk "Copy Document" (Json.obj kvs) &&
      containsOk "Artwork" (Json.obj kvs)
  | _ => false

/-- Checker for one copy_quality row. -/
def checkCopyQualityRow (p : List PathSeg) (j : Json) : List VErr :=
  match j with
  | Json.obj kvs =>
      addlErrs ["language", "original_text", "recommendation", "status_code", "evidence"] p kvs ++
      reqErrs ["language", "original_text", "recommendation", "status_code", "evidence"] p kvs ++
      propErr "language" (checkEnumNode languageEnumValues) p kvs ++
      propErr "original_text" checkString p kvs ++
      propErr "recommendation" checkString p kvs ++
      propErr "status_code" (checkEnumNode statusEnumValues) p kvs ++
      propErr "evidence" checkString p kvs
  | _ => [⟨p, VKind.typeErr "object"⟩]

/-- Conformance for one copy_quality row. -/
def confCopyQualityRow (j : Json) : Bool :=
  match j with
  | Json.obj kvs =>
      addlOk ["language", "original_text", "recommendation", "status_code", "evidence"] kvs &&
      reqOk ["language", "original_text", "recommendation", "status_code", "evidence"] kvs &&
      propOk "language" (confEnumNode languageEnumValues) kvs &&
      propOk "original_text" confString kvs &&
      propOk "recommendation" confString kvs &&
      propOk "status_code" (confEnumNode statusEnumValues) kvs &&
      propOk "evidence" confString kvs
  | _ => false

/-- Checker for one claim_risk row. -/
def checkClaimRiskRow (p : List PathSeg) (j : Json) : List VErr :=
  match j with
  | Json.obj kvs =>
      addlErrs ["language", "claim", "risk_level", "rationale", "regions_impacted", "action",
        "status_code"] p kvs ++
      reqErrs ["language", "claim", "risk_level", "rationale", "regions_impacted", "action",
        "status_code"] p kvs ++
      propErr "language" (checkEnumNode languageEnumValues) p kvs ++
      propErr "claim" checkString p kvs ++
      propErr "risk_level" (checkEnumNode riskLevelEnumValues) p kvs ++
      propErr "rationale" checkString p kvs ++
      propErr "regions_impacted" checkRegionsArray p kvs ++
      propErr "action" (checkEnumNode actionEnumValues) p kvs ++
      propErr "status_code" (checkEnumNode statusEnumValues) p kvs
  | _ => [⟨p, VKind.typeErr "object"⟩]

/-- Conformance for one claim_risk row. -/
def confClaimRiskRow (j : Json) : Bool :=
  match j with
  | Json.obj kvs =>
      addlOk ["language", "claim", "risk_level", "rationale", "regions_impacted", "action",
        "status_code"] kvs &&
      reqOk ["language", "claim", "risk_level", "rationale", "regions_impacted", "action",
        "status_code"] kvs &&
      propOk "language" (confEnumNode languageEnumValues) kvs &&
      propOk "claim" confString kvs &&
      propOk "risk_level" (confEnumNode riskLevelEnumValues) kvs &&
      propOk "rationale" confString kvs &&
      propOk "regions_impacted" confRegionsArray kvs &&
      propOk "action" (confEnumNode actionEnumValues) kvs &&
      propOk "status_code" (confEnumNode statusEnumValues) kvs
  | _ => false

/-- Checker for one label_claim_conversion row. -/
def checkLabelClaimRow (p : List PathSeg) (j : Json) : List VErr :=
  match j with
  | Json.obj kvs =>
      addlErrs ["source", "declared_ml", "calculated_fl_oz", "declared_fl_oz",
        "within_tolerance", "status_code", "notes"] p kvs ++
      reqErrs ["source", "declared_ml", "calculated_fl_oz", "declared_fl_oz",
        "within_tolerance", "status_code", "notes"] p kvs ++
      propErr "source" (checkStringMin 1) p kvs ++
      propErr "declared_ml" checkNumberMin0 p kvs ++
      propErr "calculated_fl_oz" checkNumberMin0 p kvs ++
      propErr "declared_fl_oz" checkNumberMin0 p kvs ++
      propErr "within_tolerance" checkBoolean p kvs ++
      propErr "status_code" (checkEnumNode statusEnumValues) p kvs ++
      propErr "notes" checkString p kvs
  | _ => [⟨p, VKind.typeErr "object"⟩]

/-- Conformance for one label_claim_conversion row. -/
def confLabelClaimRow (j : Json) : Bool :=
  match j with
  | Json.obj kvs =>
      addlOk ["source", "declared_ml", "calculated_fl_oz", "declared_fl_oz",
        "within_tolerance", "status_code", "notes"] kvs &&
      reqOk ["source", "declared_ml", "calculated_fl_oz", "declared_fl_oz",
        "within_tolerance", "status_code", "notes"] kvs &&
      propOk "source" (confStringMin 1) kvs &&
      propOk "declared_ml" confNumberMin0 kvs &&
      propOk "calculated_fl_oz" confNumberMin0 kvs &&
      propOk "declared_fl_oz" confNumberMin0 kvs &&
      propOk "within_tolerance" confBoolean kvs &&
      propOk "status_code" (confEnumNode statusEnumValues) kvs &&
      propOk "notes" confString kvs
  | _ => false

/-- Checker for one artwork_match row. -/
def checkArtworkMatchRow (p : List PathSeg) (j : Json) : List VErr :=
  match j with
  | Json.obj kvs =>
      addlErrs ["field", "copy_doc_value", "artwork_value", "match", "notes"] p kvs ++
      reqErrs ["field", "copy_doc_value", "artwork_value", "match", "notes"] p kvs ++
      propErr "field" checkString p kvs ++
      propErr "copy_doc_value" checkString p kvs ++
      propErr "artwork_value" checkString p kvs ++
      propErr "match" checkBoolean p kvs ++
      propErr "notes" checkString p kvs
  | _ => [⟨p, VKind.typeErr "object"⟩]

/-- Conformance for one artwork_match row. -/
def confArtworkMatchRow (j : Json) : Bool :=
  match j with
  | Json.obj kvs =>
      addlOk ["field", "copy_doc_value", "artwork_value", "match", "notes"] kvs &&
      reqOk ["field", "copy_doc_value", "artwork_value", "match", "notes"] kvs &&
      propOk "field" confString kvs &&
      propOk "copy_doc_value" confString kvs &&
      propOk "artwork_value" confString kvs &&
      propOk "match" confBoolean kvs &&
      propOk "notes" confString kvs
  | _ => false

/-- Checker for one font_size row. -/
def checkFontSizeRow (p : List PathSeg) (j : Json) : List VErr :=
  match j with
  | Json.obj kvs =>
      addlErrs ["text", "jurisdiction", "required_min_pt", "measured_min_pt", "method",
        "status_code", "screenshot_id"] p kvs ++
      reqErrs ["text", "jurisdiction", "required_min_pt", "measured_min_pt", "method",
        "status_code", "screenshot_id"] p kvs ++
      propErr "text" checkString p kvs ++
      propErr "jurisdiction" checkString p kvs ++
      propErr "required_min_pt" checkNumberMin0 p kvs ++
      propErr "measured_min_pt" checkNumberMin0 p kvs ++
      propErr "method" (checkEnumNode methodEnumValues) p kvs ++
      propErr "status_code" (checkEnumNode statusEnumValues) p kvs ++
      propErr "screenshot_id" checkString p kvs
  | _ => [⟨p, VKind.typeErr "object"⟩]

/-- Conformance for one font_size row. -/
def confFontSizeRow (j : Json) : Bool :=
  match j with
  | Json.obj kvs =>
      addlOk ["text", "jurisdiction", "required_min_pt", "measured_min_pt", "method",
        "status_code", "screenshot_id"] kvs &&
      reqOk ["text", "jurisdiction", "required_min_pt", "measured_min_pt", "method",
        "status_code", "screenshot_id"] kvs &&
      propOk "text" confString kvs &&
      propOk "jurisdiction" confString kvs &&
      propOk "required_min_pt" confNumberMin0 kvs &&
      propOk "measured_min_pt" confNumberMin0 kvs &&
      propOk "method" (confEnumNode methodEnumValues) kvs &&
      propOk "status_code" (confEnumNode statusEnumValues) kvs &&
      propOk "screenshot_id" confString kvs
  | _ => false

/-- Checker for one barcode row. -/
def checkBarcodeRow (p : List PathSeg) (j : Json) : List VErr :=
  match j with
  | Json.obj kvs =>
      addlErrs ["symbology", "encoded_digits", "check_digit_valid", "x_dim_mm", "quiet_zone_mm",
        "module_count", "print_contrast", "scan_test"] p kvs ++
      reqErrs ["symbology", "encoded_digits", "check_digit_valid", "x_dim_mm", "quiet_zone_mm",
        "module_count", "print_contrast", "scan_test"] p kvs ++
      propErr "symbology" (checkEnumNode symbologyEnumValues) p kvs ++
      propErr "encoded_digits" (checkPatternNode matchesEncodedDigits) p kvs ++
      propErr "check_digit_valid" checkBoolean p kvs ++
      propErr "x_dim_mm" checkNumberMin0 p kvs ++
      propErr "quiet_zone_mm" checkNumberMin0 p kvs ++
      propErr "module_count" checkIntegerMin0 p kvs ++
      propErr "print_contrast" checkNumberMin0Max100 p kvs ++
      propErr "scan_test" (checkEnumNode scanTestEnumValues) p kvs
  | _ => [⟨p, VKind.typeErr "object"⟩]

/-- Conformance for one barcode row. -/
def confBarcodeRow (j : Json) : Bool :=
  match j with
  | Json.obj kvs =>
      addlOk ["symbology", "encoded_digits", "check_digit_valid", "x_dim_mm", "quiet_zone_mm",
        "module_count", "print_contrast", "scan_test"] kvs &&
      reqOk ["symbology", "encoded_digits", "check_digit_valid", "x_dim_mm", "quiet_zone_mm",
        "module_count", "print_contrast", "scan_test"] kvs &&
      propOk "symbology" (confEnumNode symbologyEnumValues) kvs &&
      propOk "encoded_digits" (confPatternNode matchesEncodedDigits) kvs &&
      propOk "check_digit_valid" confBoolean kvs &&
      propOk "x_dim_mm" confNumberMin0 kvs &&
      propOk "quiet_zone_mm" confNumberMin0 kvs &&
      propOk "module_count" confIntegerMin0 kvs &&
      propOk "print_contrast" confNumberMin0Max100 kvs &&
      propOk "scan_test" (confEnumNode scanTestEnumValues) kvs
  | _ => false

/-- Checker for one visual_snapshots row. -/
def checkVisualSnapshotRow (p : List PathSeg) (j : Json) : List VErr :=
  match j with
  | Json.obj kvs =>
      addlErrs ["id", "what", "where", "fix", "linked_rows", "status_after_fix"] p kvs ++
      reqErrs ["id", "what", "where", "fix", "linked_rows", "status_after_fix"] p kvs ++
      propErr "id" (checkPatternNode matchesSnapshotId) p kvs ++
      propErr "what" checkString p kvs ++
      propErr "where" checkString p kvs ++
      propErr "fix" checkString p kvs ++
      propErr "linked_rows" (checkArrayOf checkString) p kvs ++
      propErr "status_after_fix" (checkEnumNode statusAfterFixEnumValues) p kvs
  | _ => [⟨p, VKind.typeErr "object"⟩]

/-- Conformance for one visual_snapshots row. -/
def confVisualSnapshotRow (j : Json) : Bool :=
  match j with
  | Json.obj kvs =>
      addlOk ["id", "what", "where", "fix", "linked_rows", "status_after_fix"] kvs &&
      reqOk ["id", "what", "where", "fix", "linked_rows", "status_after_fix"] kvs &&
      propOk "id" (confPatternNode matchesSnapshotId) kvs &&
      propOk "what" confString kvs &&
      propOk "where" confString kvs &&
      propOk "fix" confString kvs &&
      propOk "linked_rows" (confArrayOf confString) kvs &&
      propOk "status_after_fix" (confEnumNode statusAfterFixEnumValues) kvs
  | _ => false

/-- Checker for one summary row of score_summary. -/
def checkSummaryRow (p : List PathSeg) (j : Json) : List VErr :=
  match j with
  | Json.obj kvs =>
      addlErrs ["area", "checks", "matches", "score_percent", "notes"] p kvs ++
      reqErrs ["area", "checks", "matches", "score_percent", "notes"] p kvs ++
      propErr "area" checkString p kvs ++
      propErr "checks" checkIntegerMin0 p kvs ++
      propErr "matches" checkIntegerMin0 p kvs ++
      propErr "score_percent" checkNumberMin0Max100 p kvs ++
      propErr "notes" checkString p kvs
  | _ => [⟨p, VKind.typeErr "object"⟩]

/-- Conformance for one summary row of score_summary. -/
def confSummaryRow (j : Json) : Bool :=
  match j with
  | Json.obj kvs =>
      addlOk ["area", "checks", "matches", "score_percent", "notes"] kvs &&
      reqOk ["area", "checks", "matches", "score_percent", "notes"] kvs &&
      propOk "area" confString kvs &&
      propOk "checks" confIntegerMin0 kvs &&
      propOk "matches" confIntegerMin0 kvs &&
      propOk "score_percent" confNumberMin0Max100 kvs &&
      propOk "notes" confString kvs
  | _ => false

/-- Checker for the score_summary object of step3. -/
def checkScoreSummary (p : List PathSeg) (j : Json) : List VErr :=
  match j with
  | Json.obj kvs =>
      addlErrs ["summary_rows", "top_fixes", "attention", "next_steps"] p kvs ++
      reqErrs ["summary_rows", "top_fixes", "attention", "next_steps"] p kvs ++
      propErr "summary_rows" (checkArrayOf checkSummaryRow) p kvs ++
      propErr "top_fixes" (checkArrayOf checkString) p kvs ++
      propErr "attention" (checkArrayOf checkString) p kvs ++
      propErr "next_steps" (checkArrayOf checkString) p kvs
  | _ => [⟨p, VKind.typeErr "object"⟩]

/-- Conformance for the score_summary object of step3. -/
def confScoreSummary (j : Json) : Bool :=
  match j with
  | Json.obj kvs =>
      addlOk ["summary_rows", "top_fixes", "attention", "next_steps"] kvs &&
      reqOk ["summary_rows", "top_fixes", "attention", "next_steps"] kvs &&
      propOk "summary_rows" (confArrayOf confSummaryRow) kvs &&
      propOk "top_fixes" (confArrayOf confString) kvs &&
      propOk "attention" (confArrayOf confString) kvs &&
      propOk "next_steps" (confArrayOf confString) kvs
  | _ => false

/-- Checker for step3, the core verification tables object. -/
def checkStep3 (p : List PathSeg) (j : Json) : List VErr :=
  match j with
  | Json.obj kvs =>
      addlErrs ["copy_quality", "claim_risk", "label_claim_conversion", "artwork_match",
        "font_size", "barcode", "visual_snapshots", "score_summary"] p kvs ++
      reqErrs ["copy_quality", "claim_risk", "label_claim_conversion", "artwork_match",
        "font_size", "barcode", "visual_snapshots", "score_summary"] p kvs ++
      propErr "copy_quality" (checkArrayOf checkCopyQualityRow) p kvs ++
      propErr "claim_risk" (checkArrayOf checkClaimRiskRow) p kvs ++
      propErr "label_claim_conversion" (checkArrayOf checkLabelClaimRow) p kvs ++
      propErr "artwork_match" (checkArrayOf checkArtworkMatchRow) p kvs ++
      propErr "font_size" (checkArrayOf checkFontSizeRow) p kvs ++
      propErr "barcode" (checkArrayOf checkBarcodeRow) p kvs ++
      propErr "visual_snapshots" (checkArrayOf checkVisualSnapshotRow) p kvs ++
      propErr "score_summary" checkScoreSummary p kvs
  | _ => [⟨p, VKind.typeErr "object"⟩]

/-- Conformance for step3. -/
def confStep3 (j : Json) : Bool :=
  match j with
  | Json.obj kvs =>
      addlOk ["copy_quality", "claim_risk", "label_claim_conversion", "artwork_match",
        "font_size", "barcode", "visual_snapshots", "score_summary"] kvs &&
      reqOk ["copy_quality", "claim_risk", "label_claim_conversion", "artwork_match",
        "font_size", "barcode", "visual_snapshots", "score_summary"] kvs &&
      propOk "copy_quality" (confArrayOf confCopyQualityRow) kvs &&
      propOk "claim_risk" (confArrayOf confClaimRiskRow) kvs &&
      propOk "label_claim_conversion" (confArrayOf confLabelClaimRow) kvs &&
      propOk "artwork_match" (confArrayOf confArtworkMatchRow) kvs &&
      propOk "font_size" (confArrayOf confFontSizeRow) kvs &&
      propOk "barcode" (confArrayOf confBarcodeRow) kvs &&
      propOk "visual_snapshots" (confArrayOf confVisualSnapshotRow) kvs &&
      propOk "score_summary" confScoreSummary kvs
  | _ => false

/-- Checker for step4, the optional-fields object (no required fields). -/
def checkStep4 (p : List PathSeg) (j : Json) : List VErr :=
  match j with
  | Json.obj kvs =>
      addlErrs ["version_change_log", "creative_brand_voice_check",
        "one_page_pdf_summary_export"] p kvs ++
      propErr "version_change_log" checkString p kvs ++
      propErr "creative_brand_voice_check" checkString p kvs ++
      propErr "one_page_pdf_summary_export" checkBoolean p kvs
  | _ => [⟨p, VKind.typeErr "object"⟩]

/-- Conformance for step4. -/
def confStep4 (j : Json) : Bool :=
  match j with
  | Json.obj kvs =>
      addlOk ["version_change_log", "creative_brand_voice_check",
        "one_page_pdf_summary_export"] kvs &&
      propOk "version_change_log" confString kvs &&
      propOk "creative_brand_voice_check" confString kvs &&
      propOk "one_page_pdf_summary_export" confBoolean kvs
  | _ => false

/-- Checker for one constraint row of step5. -/
def checkConstraintRow (p : List PathSeg) (j : Json) : List VErr :=
  match j with
  | Json.obj kvs =>
      addlErrs ["constraint", "source", "applies_to", "notes"] p kvs ++
      reqErrs ["constraint", "source", "applies_to", "notes"] p kvs ++
      propErr "constraint" checkString p kvs ++
      propErr "source" (checkEnumNode sourceEnumValues) p kvs ++
      propErr "applies_to" checkString p kvs ++
      propErr "notes" checkString p kvs
  | _ => [⟨p, VKind.typeErr "object"⟩]

/-- Conformance for one constraint row of step5. -/
def confConstraintRow (j : Json) : Bool :=
  match j with
  | Json.obj kvs =>
      addlOk ["constraint", "source", "applies_to", "notes"] kvs &&
      reqOk ["constraint", "source", "applies_to", "notes"] kvs &&
      propOk "constraint" confString kvs &&
      propOk "source" (confEnumNode sourceEnumValues) kvs &&
      propOk "applies_to" confString kvs &&
      propOk "notes" confString kvs
  | _ => false

/-- Checker for step5, the special-notes object. -/
def checkStep5 (p : List PathSeg) (j : Json) : List VErr :=
  match j with
  | Json.obj kvs =>
      addlErrs ["constraints"] p kvs ++
      reqErrs ["constraints"] p kvs ++
      propErr "constraints" (checkArrayOf checkConstraintRow) p kvs
  | _ => [⟨p, VKind.typeErr "object"⟩]

/-- Conformance for step5. -/
def confStep5 (j : Json) : Bool :=
  match j with
  | Json.obj kvs =>
      addlOk ["constraints"] kvs &&
      reqOk ["constraints"] kvs &&
      propOk "constraints" (confArrayOf confConstraintRow) kvs
  | _ => false

/-- Collector of every structural violation in traversal order, the model
of iterating Draft202012Validator iter_errors over the embedded schema. -/
def collectErrors (j : Json) : List VErr :=
  match j with
  | Json.obj kvs =>
      addlErrs ["version", "step1", "step2", "step3", "step4", "step5"] [] kvs ++
      reqErrs ["step1", "step2", "step3", "step5"] [] kvs ++
      propErr "version" (checkPatternNode matchesSemver) [] kvs ++
      propErr "step1" checkStep1 [] kvs ++
      propErr "step2" checkStep2 [] kvs ++
      propErr "step3" checkStep3 [] kvs ++
      propErr "step4" checkStep4 [] kvs ++
      propErr "step5" checkStep5 [] kvs
  | _ => [⟨[], VKind.typeErr "object"⟩]

/-- Conformance of a whole payload to the embedded schema. -/
def conforms (j : Json) : Bool :=
  match j with
  | Json.obj kvs =>
      addlOk ["version", "step1", "step2", "step3", "step4", "step5"] kvs &&
      reqOk ["step1", "step2", "step3", "step5"] kvs &&
      propOk "version" (confPatternNode matchesSemver) kvs &&
      propOk "step1" confStep1 kvs &&
      propOk "step2" confStep2 kvs &&
      propOk "step3" confStep3 kvs &&
      propOk "step4" confStep4 kvs &&
      propOk "step5" confStep5 kvs
  | _ => false

/-- Sorted sequence of violations: every error found in one pass, ordered
by path with a stable sort, the model of sorted with key list(e.path) in
`validate_payload`. -/
def validationErrors (j : Json) : List VErr :=
  (collectErrors j).insertionSort errLEP

/-- Display form of one path segment. -/
def segStr : PathSeg → String
  | PathSeg.key s => s
  | PathSeg.idx n => toString n

/-- Short display message for one violation kind; the exact jsonschema
message wording is abstracted. -/
def kindMsg : VKind → String
  | VKind.typeErr t => "is not of type " ++ t
  | VKind.requiredErr r => r ++ " is a required property"
  | VKind.additionalPropsErr xs => "additional properties " ++ joinSep ", " xs ++ " not allowed"
  | VKind.enumErr => "is not one of the enum values"
  | VKind.patternErr => "does not match the pattern"
  | VKind.minLengthErr n => "is shorter than " ++ toString n
  | VKind.minItemsErr n => "has fewer than " ++ toString n ++ " items"
  | VKind.uniqueItemsErr => "has non-unique elements"
  | VKind.minimumErr => "is below the minimum"
  | VKind.maximumErr => "is above the maximum"
  | VKind.containsErr => "does not contain a required item"

/-- Display line for one violation: the slash-joined path, or a root
marker when the path is empty, then the message. -/
def errLine (e : VErr) : String :=
  (if e.path.isEmpty then "<root>" else joinSep "/" (e.path.map segStr)) ++ ": " ++ kindMsg e.kind

/-- Model of `validate_payload`: collect and sort every violation; when any
exist, raise ValueError with the aggregated report (modelled as the error
branch); otherwise return the payload unchanged. -/
def validate_payload (payload : Json) : Except String Json :=
  if (validationErrors payload).isEmpty then Except.ok payload
  else Except.error ("Invalid SOP payload:\n" ++ joinSep "\n" ((validationErrors payload).map errLine))

/-- Outcome test distinguishing a normal return from a raised fault. -/
def exceptIsOk : Except String Json → Bool
  | Except.ok _ => true
  | Except.error _ => false

/-- Attachment entry with the given type and filename and an OK status. -/
def fileItemJson (t fn : String) : Json :=
  Json.obj [("type", Json.str t), ("filename", Json.str fn), ("status_code", Json.str "OK")]

/-- Empty score_summary object (all four arrays empty). -/
def scoreSummaryEmptyJson : Json :=
  Json.obj [("summary_rows", Json.arr []), ("top_fixes", Json.arr []),
    ("attention", Json.arr []), ("next_steps", Json.arr [])]

/-- step3 object with every table empty. -/
def step3EmptyJson : Json :=
  Json.obj [("copy_quality", Json.arr []), ("claim_risk", Json.arr []),
    ("label_claim_conversion", Json.arr []), ("artwork_match", Json.arr []),
    ("font_size", Json.arr []), ("barcode", Json.arr []),
    ("visual_snapshots", Json.arr []), ("score_summary", scoreSummaryEmptyJson)]

/-- Minimal structurally valid payload: the end-to-end scenario of the
specification (no version, one region, two attachments of the two required
types, all tables empty). -/
def docMinJson : Json :=
  Json.obj [
    ("step1", Json.obj [("project_name", Json.str "X"), ("round_version", Json.str "1.0"),
      ("regions_in_scope", Json.arr [Json.str "USA"]), ("due_date", Json.str "2025-01-01")]),
    ("step2", Json.obj [("files",
      Json.arr [fileItemJson "Copy Document" "copy.docx", fileItemJson "Artwork" "art.pdf"])]),
    ("step3", step3EmptyJson),
    ("step5", Json.obj [("constraints", Json.arr [])])]

/-- The minimal payload with a version member carrying the given value. -/
def docWithVersion (v : Json) : Json :=
  Json.obj [
    ("version", v),
    ("step1", Json.obj [("project_name", Json.str "X"), ("round_version", Json.str "1.0"),
      ("regions_in_scope", Json.arr [Json.str "USA"]), ("due_date", Json.str "2025-01-01")]),
    ("step2", Json.obj [("files",
      Json.arr [fileItemJson "Copy Document" "copy.docx", fileItemJson "Artwork" "art.pdf"])]),
    ("step3", step3EmptyJson),
    ("step5", Json.obj [("constraints", Json.arr [])])]

/-- The minimal payload with a files array whose two entries are both of
type Other: no Copy Document entry and no Artwork entry. -/
def docFilesBothOtherJson : Json :=
  Json.obj [
    ("step1", Json.obj [("project_name", Json.str "X"), ("round_version", Json.str "1.0"),
      ("regions_in_scope", Json.arr [Json.str "USA"]), ("due_date", Json.str "2025-01-01")]),
    ("step2", Json.obj [("files",
      Json.arr [fileItemJson "Other" "a.txt", fileItemJson "Other" "b.txt"])]),
    ("step3", step3EmptyJson),
    ("step5", Json.obj [("constraints", Json.arr [])])]

/-- The minimal payload with a files array holding a single entry. -/
def docFilesOneJson : Json :=
  Json.obj [
    ("step1", Json.obj [("project_name", Json.str "X"), ("round_version", Json.str "1.0"),
      ("regions_in_scope", Json.arr [Json.str "USA"]), ("due_date", Json.str "2025-01-01")]),
    ("step2", Json.obj [("files", Json.arr [fileItemJson "Copy Document" "copy.docx"])]),
    ("step3", step3EmptyJson),
    ("step5", Json.obj [("constraints", Json.arr [])])]

/-- The minimal payload with the two required attachment types plus two
extra entries. -/
def docFilesExtrasJson : Json :=
  Json.obj [
    ("step1", Json.obj [("project_name", Json.str "X"), ("round_version", Json.str "1.0"),
      ("regions_in_scope", Json.arr [Json.str "USA"]), ("due_date", Json.str "2025-01-01")]),
    ("step2", Json.obj [("files",
      Json.arr [fileItemJson "Other" "x.txt", fileItemJson "Copy Document" "copy.docx",
        fileItemJson "Artwork" "art.pdf", fileItemJson "Other" "y.txt"])]),
    ("step3", step3EmptyJson),
    ("step5", Json.obj [("constraints", Json.arr [])])]

/-- Payload with exactly three independent structural violations: an empty
project_name (minLength), a malformed due_date (pattern), and a
single-entry files array (minItems). -/
def docThreeViolationsJson : Json :=
  Json.obj [
    ("step1", Json.obj [("project_name", Json.str ""), ("round_version", Json.str "1.0"),
      ("regions_in_scope", Json.arr [Json.str "USA"]), ("due_date", Json.str "2025/01/01")]),
    ("step2", Json.obj [("files", Json.arr [fileItemJson "Copy Document" "copy.docx"])]),
    ("step3", step3EmptyJson),
    ("step5", Json.obj [("constraints", Json.arr [])])]

/-- Model of the table builder `_print_table`: the title, a blank line, a
header line from the first row, a separator with one placeholder per header
column, then one line per remaining row, all joined with newlines. -/
def _print_table (header : String) (rows : List (List String)) : String :=
  joinSep "\n"
    ([header, "", "| " ++ joinSep " | " (rows.headD []) ++ " |",
      "|" ++ joinSep "|" (List.replicate (rows.headD []).length "---") ++ "|"] ++
      rows.tail.map (fun r => "| " ++ joinSep " | " r ++ " |"))

/-- Model of Python str() on a JSON number as placed into a cell; decimal
formatting of non-integers is abstracted. -/
def pyNum (q : Rat) : String :=
  if q.den = 1 then toString q.num else toString q

/-- Typed attachment entry of a validated payload. -/
structure FileItem where
  type : String
  filename : String
  status_code : String
  note : Option String

/-- Typed step1 section of a validated payload. -/
structure Step1Data where
  project_name : String
  round_version : String
  regions_in_scope : List String
  due_date : String

/-- Typed step2 section of a validated payload. -/
structure Step2Data where
  files : List FileItem

/-- Typed copy_quality row. -/
structure CopyQualityRow where
  language : String
  original_text : String
  recommendation : String
  status_code : String
  evidence : String

/-- Typed claim_risk row. -/
structure ClaimRiskRow where
  language : String
  claim : String
  risk_level : String
  rationale : String
  regions_impacted : List String
  action : String
  status_code : String

/-- Typed label_claim_conversion row. -/
structure LabelClaimRow where
  source : String
  declared_ml : Rat
  calculated_fl_oz : Rat
  declared_fl_oz : Rat
  within_tolerance : Bool
  status_code : String
  notes : String

/-- Typed artwork_match row; matchFlag models the match member. -/
structure ArtworkMatchRow where
  field : String
  copy_doc_value : String
  artwork_value : String
  matchFlag : Bool
  notes : String

/-- Typed font_size row. -/
structure FontSizeRow where
  text : String
  jurisdiction : String
  required_min_pt : Rat
  measured_min_pt : Rat
  method : String
  status_code : String
  screenshot_id : String

/-- Typed barcode row. -/
structure BarcodeRow where
  symbology : String
  encoded_digits : String
  check_digit_valid : Bool
  x_dim_mm : Rat
  quiet_zone_mm : Rat
  module_count : Rat
  print_contrast : Rat
  scan_test : String

/-- Typed visual_snapshots row; whereLoc models the where member. -/
structure VisualSnapshotRow where
  id : String
  what : String
  whereLoc : String
  fix : String
  linked_rows : List String
  status_after_fix : String

/-- Typed summary row of score_summary; matchCount models the matches
member. -/
structure SummaryRow where
  area : String
  checks : Rat
  matchCount : Rat
  score_percent : Rat
  notes : String

/-- Typed score_summary object. -/
structure ScoreSummaryData where
  summary_rows : List SummaryRow
  top_fixes : List String
  attention : List String
  next_steps : List String

/-- Typed step3 section of a validated payload. -/
structure Step3Data where
  copy_quality : List CopyQualityRow
  claim_risk : List ClaimRiskRow
  label_claim_conversion : List LabelClaimRow
  artwork_match : List ArtworkMatchRow
  font_size : List FontSizeRow
  barcode : List BarcodeRow
  visual_snapshots : List VisualSnapshotRow
  score_summary : ScoreSummaryData

/-- Typed step4 section (every member optional). -/
structure Step4Data where
  version_change_log : Option String
  creative_brand_voice_check : Option String
  one_page_pdf_summary_export : Option Bool

/-- Typed constraint row of step5. -/
structure Step5Row where
  constraint : String
  source : String
  applies_to : String
  notes : String

/-- Typed step5 section of a validated payload. -/
structure Step5Data where
  constraints : List Step5Row

/-- Typed validated Document: optional version, four mandatory sections and
the optional step4. -/
structure Document where
  version : Option String
  step1 : Step1Data
  step2 : Step2Data
  step3 : Step3Data
  step4 : Option Step4Data
  step5 : Step5Data

/-- Row set of the step1 table. -/
def step1Rows (d : Step1Data) : List (List String) :=
  [["Field", "Fill In"],
   ["Project Name", d.project_name],
   ["Round / Version", d.round_version],
   ["Regions in Scope", _format_regions_with_flags d.regions_in_scope],
   ["Due Date", d.due_date]]

/-- Renderer for step1. -/
def render_step1 (d : Step1Data) : String :=
  _print_table "1️⃣ Project Header" (step1Rows d)

/-- Row set of the step2 table, one row per attachment in order. -/
def step2Rows (d : Step2Data) : List (List String) :=
  [["Type", "Filename", "Status", "Note"]] ++
    d.files.map (fun f => [f.type, f.filename, statusEmoji f.status_code, f.note.getD ""])

/-- Renderer for step2. -/
def render_step2 (d : Step2Data) : String :=
  _print_table "2️⃣ Files to Attach" (step2Rows d)

/-- Row set of table A. -/
def copyQualityRows (items : List CopyQualityRow) : List (List String) :=
  [["Language", "Original Text", "Recommendation", "Status", "Evidence"]] ++
    items.map (fun x =>
      [x.language, x.original_text, x.recommendation, statusEmoji x.status_code, x.evidence])

/-- Renderer for table A. -/
def render_step3_copy_quality (items : List CopyQualityRow) : String :=
  _print_table "A. Copy Quality" (copyQualityRows items)

/-- Row set of table B. -/
def claimRiskRows (items : List ClaimRiskRow) : List (List String) :=
  [["Language", "Claim (quote)", "Risk Level", "Rationale", "Regions", "Action", "Status"]] ++
    items.map (fun x =>
      [x.language, x.claim, x.risk_level, x.rationale, joinSep ", " x.regions_impacted,
       x.action, statusEmoji x.status_code])

/-- Renderer for table B. -/
def render_step3_claim_risk (items : List ClaimRiskRow) : String :=
  _print_table "B. Claim Risk" (claimRiskRows items)

/-- Row set of table C. -/
def labelClaimRows (items : List LabelClaimRow) : List (List String) :=
  [["Source", "Declared (mL)", "Calculated (fl oz)", "Declared (fl oz)", "Within ±0.10",
    "Status", "Notes"]] ++
    items.map (fun x =>
      [x.source, pyNum x.declared_ml, pyNum x.calculated_fl_oz, pyNum x.declared_fl_oz,
       if x.within_tolerance then "Yes" else "No", statusEmoji x.status_code, x.notes])

/-- Renderer for table C. -/
def render_step3_label_claim_conversion (items : List LabelClaimRow) : String :=
  _print_table "C. Label-Claim Conversion" (labelClaimRows items)

/-- Row set of table D. -/
def artworkMatchRows (items : List ArtworkMatchRow) : List (List String) :=
  [["Field", "Copy Doc Value", "Artwork Value", "Match", "Notes"]] ++
    items.map (fun x =>
      [x.field, x.copy_doc_value, x.artwork_value, if x.matchFlag then "✅" else "❌", x.notes])

/-- Renderer for table D. -/
def render_step3_artwork_match (items : List ArtworkMatchRow) : String :=
  _print_table "D. Artwork Match" (artworkMatchRows items)

/-- Row set of table E. -/
def fontSizeRows (items : List FontSizeRow) : List (List String) :=
  [["Text String / Field", "Jurisdiction", "Required Min (pt)", "Measured Min (pt)", "Method",
    "Status", "Screenshot ID"]] ++
    items.map (fun x =>
      [x.text, x.jurisdiction, pyNum x.required_min_pt, pyNum x.measured_min_pt, x.method,
       statusEmoji x.status_code, x.screenshot_id])

/-- Renderer for table E. -/
def render_step3_font_size (items : List FontSizeRow) : String :=
  _print_table "E. Font Size" (fontSizeRows items)

/-- Row set of table F. -/
def barcodeRows (items : List BarcodeRow) : List (List String) :=
  [["Symbology", "Encoded Digits", "Check Digit Valid", "X-Dim (mm)", "Quiet Zone (mm)",
    "Module Count", "Print Contrast", "Scan Test"]] ++
    items.map (fun x =>
      [x.symbology, x.encoded_digits, if x.check_digit_valid then "Yes" else "No",
       pyNum x.x_dim_mm, pyNum x.quiet_zone_mm, pyNum x.module_count, pyNum x.print_contrast,
       x.scan_test])

/-- Renderer for table F. -/
def render_step3_barcode (items : List BarcodeRow) : String :=
  _print_table "F. Barcode" (barcodeRows items)

/-- Row set of table G. -/
def visualSnapshotRows (items : List VisualSnapshotRow) : List (List String) :=
  [["ID", "What", "Where", "Fix", "Linked Rows", "Status After Fix"]] ++
    items.map (fun x =>
      [x.id, x.what, x.whereLoc, x.fix, joinSep ", " x.linked_rows, x.status_after_fix])

/-- Renderer for table G. -/
def render_step3_visual_snapshots (items : List VisualSnapshotRow) : String :=
  _print_table "G. Visual Snapshots" (visualSnapshotRows items)

/-- Row set of the primary table H. -/
def summaryRows (items : List SummaryRow) : List (List String) :=
  [["Area", "Checks", "Matches", "Score %", "Notes"]] ++
    items.map (fun x =>
      [x.area, pyNum x.checks, pyNum x.matchCount, pyNum x.score_percent, x.notes])

/-- Row set of one single-column list table of step3 H. -/
def smallRows (items : List String) : List (List String) :=
  [["Item"]] ++ items.map (fun it => [it])

/-- Renderer for the score_summary group: the primary table H followed by
the three list tables, joined with blank lines. -/
def render_step3_score_summary (d : ScoreSummaryData) : String :=
  joinSep "\n\n"
    [_print_table "H. Score & Summary" (summaryRows d.summary_rows),
     _print_table "Top Fixes (❌)" (smallRows d.top_fixes),
     _print_table "Attention (⚠️)" (smallRows d.attention),
     _print_table "Next Steps" (smallRows d.next_steps)]

/-- Renderer for step3: the eight sub-tables A to H in fixed order, joined
with blank lines. -/
def render_step3 (d : Step3Data) : String :=
  joinSep "\n\n"
    [render_step3_copy_quality d.copy_quality,
     render_step3_claim_risk d.claim_risk,
     render_step3_label_claim_conversion d.label_claim_conversion,
     render_step3_artwork_match d.artwork_match,
     render_step3_font_size d.font_size,
     render_step3_barcode d.barcode,
     render_step3_visual_snapshots d.visual_snapshots,
     render_step3_score_summary d.score_summary]

/-- Row set of the step4 table: only the members present contribute rows,
in fixed field order. -/
def step4Rows (d : Step4Data) : List (List String) :=
  [["Field", "Content"]] ++
    (match d.version_change_log with
     | some v => [["Version-Change Log", v]]
     | none => []) ++
    (match d.creative_brand_voice_check with
     | some v => [["Creative Brand-Voice Check", v]]
     | none => []) ++
    (match d.one_page_pdf_summary_export with
     | some b => [["One-Page PDF Summary Export", if b then "Yes" else "No"]]
     | none => [])

/-- Renderer for step4. -/
def render_step4 (d : Step4Data) : String :=
  _print_table "4️⃣ Optional Fields" (step4Rows d)

/-- Row set of the step5 table. -/
def step5Rows (d : Step5Data) : List (List String) :=
  [["Constraint", "Source", "Applies To (Region/Panel)", "Notes"]] ++
    d.constraints.map (fun x => [x.constraint, x.source, x.applies_to, x.notes])

/-- Renderer for step5. -/
def render_step5 (d : Step5Data) : String :=
  _print_table "5️⃣ Special Notes / Constraints" (step5Rows d)

/-- Model of the rendering segment of main: the section artifacts in
document order, step4 included exactly when present, joined with blank
lines and terminated with one newline. -/
def renderDoc (p : Document) : String :=
  joinSep "\n\n"
    ([render_step1 p.step1, render_step2 p.step2, render_step3 p.step3] ++
      (match p.step4 with
       | some s4 => [render_step4 s4]
       | none => []) ++
      [render_step5 p.step5]) ++ "\n"

/-- Flattened list of every table artifact of a Document as a title and a
row set, in output order. -/
def tableSpecs (p : Document) : List (String × List (List String)) :=
  [("1️⃣ Project Header", step1Rows p.step1),
   ("2️⃣ Files to Attach", step2Rows p.step2),
   ("A. Copy Quality", copyQualityRows p.step3.copy_quality),
   ("B. Claim Risk", claimRiskRows p.step3.claim_risk),
   ("C. Label-Claim Conversion", labelClaimRows p.step3.label_claim_conversion),
   ("D. Artwork Match", artworkMatchRows p.step3.artwork_match),
   ("E. Font Size", fontSizeRows p.step3.font_size),
   ("F. Barcode", barcodeRows p.step3.barcode),
   ("G. Visual Snapshots", visualSnapshotRows p.step3.visual_snapshots),
   ("H. Score & Summary", summaryRows p.step3.score_summary.summary_rows),
   ("Top Fixes (❌)", smallRows p.step3.score_summary.top_fixes),
   ("Attention (⚠️)", smallRows p.step3.score_summary.attention),
   ("Next Steps", smallRows p.step3.score_summary.next_steps)] ++
  (match p.step4 with
   | some s4 => [("4️⃣ Optional Fields", step4Rows s4)]
   | none => []) ++
  [("5️⃣ Special Notes / Constraints", step5Rows p.step5)]

/-- Titles of the table artifacts when step4 is present. -/
def allTitlesWith4 : List String :=
  ["1️⃣ Project Header", "2️⃣ Files to Attach", "A. Copy Quality", "B. Claim Risk",
   "C. Label-Claim Conversion", "D. Artwork Match", "E. Font Size", "F. Barcode",
   "G. Visual Snapshots", "H. Score & Summary", "Top Fixes (❌)", "Attention (⚠️)",
   "Next Steps", "4️⃣ Optional Fields", "5️⃣ Special Notes / Constraints"]

/-- Titles of the table artifacts when step4 is absent. -/
def allTitlesWithout4 : List String :=
  ["1️⃣ Project Header", "2️⃣ Files to Attach", "A. Copy Quality", "B. Claim Risk",
   "C. Label-Claim Conversion", "D. Artwork Match", "E. Font Size", "F. Barcode",
   "G. Visual Snapshots", "H. Score & Summary", "Top Fixes (❌)", "Attention (⚠️)",
   "Next Steps", "5️⃣ Special Notes / Constraints"]

/-- Body of a rendered table after the title and the blank line: header
line, separator line, then the data lines. -/
def tableBody (rows : List (List String)) : String :=
  joinSep "\n"
    (["| " ++ joinSep " | " (rows.headD []) ++ " |",
      "|" ++ joinSep "|" (List.replicate (rows.headD []).length "---") ++ "|"] ++
      rows.tail.map (fun r => "| " ++ joinSep " | " r ++ " |"))

/-- Typed form of the minimal valid payload, used to exercise the
renderer. -/
def docR : Document :=
  { version := none,
    step1 := { project_name := "X", round_version := "1.0", regions_in_scope := ["USA"],
               due_date := "2025-01-01" },
    step2 := { files := [{ type := "Copy Document", filename := "copy.docx",
                           status_code := "OK", note := none },
                         { type := "Artwork", filename := "art.pdf",
                           status_code := "OK", note := none }] },
    step3 := { copy_quality := [], claim_risk := [], label_claim_conversion := [],
               artwork_match := [], font_size := [], barcode := [], visual_snapshots := [],
               score_summary := { summary_rows := [], top_fixes := [], attention := [],
                                  next_steps := [] } },
    step4 := none,
    step5 := { constraints := [] } }

/-- The same Document with a populated step4 section. -/
def docR4 : Document :=
  { docR with step4 := some { version_change_log := some "v2",
                              creative_brand_voice_check := none,
                              one_page_pdf_summary_export := some true } }


/-- Transitivity of the strict string comparison. -/
theorem strLtB_trans : ∀ (a b c : List Char),
    strLtB a b = true → strLtB b c = true → strLtB a c = true := by
  intro a
  induction a with
  | nil =>
      intro b c hab hbc
      cases b with
      | nil => simp [strLtB] at hab
      | cons y bs =>
          cases c with
          | nil => simp [strLtB] at hbc
          | cons z cs => simp [strLtB]
  | cons x as ih =>
      intro b c hab hbc
      cases b with
      | nil => simp [strLtB] at hab
      | cons y bs =>
          cases c with
          | nil => simp [strLtB] at hbc
          | cons z cs =>
              by_cases hxy : x = y
              · subst hxy
                by_cases hxz : x = z
                · subst hxz
                  simp only [strLtB, if_pos rfl] at hab hbc ⊢
                  exact ih bs cs hab hbc
                · simp only [strLtB, if_pos rfl, if_neg hxz] at hbc ⊢
                  exact hbc
              · simp only [strLtB, if_neg hxy, decide_eq_true_eq, Char.toNat] at hab
                by_cases hyz : y = z
                · subst hyz
                  simp only [strLtB, if_neg hxy, decide_eq_true_eq, Char.toNat]
                  exact hab
                · simp only [strLtB, if_neg hyz, decide_eq_true_eq, Char.toNat] at hbc
                  have hxz : x ≠ z := by
                    intro he
                    subst he
                    omega
                  simp only [strLtB, if_neg hxz, decide_eq_true_eq, Char.toNat]
                  omega

/-- Asymmetry of the strict string comparison. -/
theorem strLtB_asymm : ∀ (a b : List Char),
    strLtB a b = true → strLtB b a = true → False := by
  intro a
  induction a with
  | nil =>
      intro b hab hba
      cases b with
      | nil => simp [strLtB] at hab
      | cons y bs => simp [strLtB] at hba
  | cons x as ih =>
      intro b hab hba
      cases b with
      | nil => simp [strLtB] at hab
      | cons y bs =>
          by_cases hxy : x = y
          · subst hxy
            simp only [strLtB, if_pos rfl] at hab hba
            exact ih bs hab hba
          · have hyx : y ≠ x := fun he => hxy he.symm
            simp only [strLtB, if_neg hxy, decide_eq_true_eq, Char.toNat] at hab
            simp only [strLtB, if_neg hyx, decide_eq_true_eq, Char.toNat] at hba
            omega

/-- Connectedness of the strict string comparison: two strings neither of
which precedes the other are equal. -/
theorem strLtB_conn : ∀ (a b : List Char),
    strLtB a b = false → strLtB b a = false → a = b := by
  intro a
  induction a with
  | nil =>
      intro b hab hba
      cases b with
      | nil => rfl
      | cons y bs => simp [strLtB] at hab
  | cons x as ih =>
      intro b hab hba
      cases b with
      | nil => simp [strLtB] at hba
      | cons y bs =>
          by_cases hxy : x = y
          · subst hxy
            simp only [strLtB, if_pos rfl] at hab hba
            rw [ih bs hab hba]
          · have hyx : y ≠ x := fun he => hxy he.symm
            simp only [strLtB, if_neg hxy, decide_eq_false_iff_not, Char.toNat] at hab
            simp only [strLtB, if_neg hyx, decide_eq_false_iff_not, Char.toNat] at hba
            have hv : x.val.toNat = y.val.toNat := by omega
            exact absurd (Char.ext (UInt32.toNat.inj hv)) hxy

/-- Transitivity of the strict segment comparison. -/
theorem segLtB_trans (a b c : PathSeg) :
    segLtB a b = true → segLtB b c = true → segLtB a c = true := by
  intro h1 h2
  cases a with
  | key sa =>
      cases b with
      | key sb =>
          cases c with
          | key sc =>
              simp only [segLtB] at h1 h2 ⊢
              exact strLtB_trans _ _ _ h1 h2
          | idx nc => simp [segLtB] at h2
      | idx nb => simp [segLtB] at h1
  | idx na =>
      cases c with
      | key sc => simp [segLtB]
      | idx nc =>
          cases b with
          | key sb => simp [segLtB] at h2
          | idx nb =>
              simp only [segLtB, decide_eq_true_eq] at h1 h2 ⊢
              omega

/-- Asymmetry of the strict segment comparison. -/
theorem segLtB_asymm (a b : PathSeg) :
    segLtB a b = true → segLtB b a = true → False := by
  intro h1 h2
  cases a with
  | key sa =>
      cases b with
      | key sb =>
          simp only [segLtB] at h1 h2
          exact strLtB_asymm _ _ h1 h2
      | idx nb => simp [segLtB] at h1
  | idx na =>
      cases b with
      | key sb => simp [segLtB] at h2
      | idx nb =>
          simp only [segLtB, decide_eq_true_eq] at h1 h2
          omega

/-- Connectedness of the strict segment comparison. -/
theorem segLtB_conn (a b : PathSeg) :
    segLtB a b = false → segLtB b a = false → a = b := by
  intro h1 h2
  cases a with
  | key sa =>
      cases b with
      | key sb =>
          simp only [segLtB] at h1 h2
          exact congrArg PathSeg.key (String.ext (strLtB_conn _ _ h1 h2))
      | idx nb => simp [segLtB] at h2
  | idx na =>
      cases b with
      | key sb => simp [segLtB] at h1
      | idx nb =>
          simp only [segLtB, decide_eq_false_iff_not] at h1 h2
          have : na = nb := by omega
          rw [this]

/-- Transitivity of the strict path comparison. -/
theorem pathLtB_trans : ∀ (a b c : List PathSeg),
    pathLtB a b = true → pathLtB b c = true → pathLtB a c = true := by
  intro a
  induction a with
  | nil =>
      intro b c hab hbc
      cases b with
      | nil => simp [pathLtB] at hab
      | cons y bs =>
          cases c with
          | nil => simp [pathLtB] at hbc
          | cons z cs => simp [pathLtB]
  | cons x as ih =>
      intro b c hab hbc
      cases b with
      | nil => simp [pathLtB] at hab
      | cons y bs =>
          cases c with
          | nil => simp [pathLtB] at hbc
          | cons z cs =>
              by_cases hxy : x = y
              · subst hxy
                by_cases hxz : x = z
                · subst hxz
                  simp only [pathLtB, if_pos rfl] at hab hbc ⊢
                  exact ih bs cs hab hbc
                · simp only [pathLtB, if_pos rfl, if_neg hxz] at hbc ⊢
                  exact hbc
              · simp only [pathLtB, if_neg hxy] at hab
                by_cases hyz : y = z
                · subst hyz
                  simp only [pathLtB, if_neg hxy]
                  exact hab
                · simp only [pathLtB, if_neg hyz] at hbc
                  have hxz : x ≠ z := by
                    intro he
                    subst he
                    exact segLtB_asymm x y hab hbc
                  simp only [pathLtB, if_neg hxz]
                  exact segLtB_trans x y z hab hbc

/-- Asymmetry of the strict path comparison. -/
theorem pathLtB_asymm : ∀ (a b : List PathSeg),
    pathLtB a b = true → pathLtB b a = true → False := by
  intro a
  induction a with
  | nil =>
      intro b hab hba
      cases b with
      | nil => simp [pathLtB] at hab
      | cons y bs => simp [pathLtB] at hba
  | cons x as ih =>
      intro b hab hba
      cases b with
      | nil => simp [pathLtB] at hab
      | cons y bs =>
          by_cases hxy : x = y
          · subst hxy
            simp only [pathLtB, if_pos rfl] at hab hba
            exact ih bs hab hba
          · have hyx : y ≠ x := fun he => hxy he.symm
            simp only [pathLtB, if_neg hxy] at hab
            simp only [pathLtB, if_neg hyx] at hba
            exact segLtB_asymm x y hab hba

/-- Connectedness of the strict path comparison. -/
theorem pathLtB_conn : ∀ (a b : List PathSeg),
    pathLtB a b = false → pathLtB b a = false → a = b := by
  intro a
  induction a with
  | nil =>
      intro b hab hba
      cases b with
      | nil => rfl
      | cons y bs => simp [pathLtB] at hab
  | cons x as ih =>
      intro b hab hba
      cases b with
      | nil => simp [pathLtB] at hba
      | cons y bs =>
          by_cases hxy : x = y
          · subst hxy
            simp only [pathLtB, if_pos rfl] at hab hba
            rw [ih bs hab hba]
          · have hyx : y ≠ x := fun he => hxy he.symm
            simp only [pathLtB, if_neg hxy] at hab
            simp only [pathLtB, if_neg hyx] at hba
            exact absurd (segLtB_conn x y hab hba) hxy

/-- Totality of the error comparison. -/
theorem errLe_total (a b : VErr) : errLe a b = true ∨ errLe b a = true := by
  unfold errLe
  cases h : pathLtB b.path a.path
  · left
    simp
  · right
    cases h2 : pathLtB a.path b.path
    · simp
    · exact (pathLtB_asymm _ _ h h2).elim

/-- Transitivity of the error comparison. -/
theorem errLe_trans (a b c : VErr) :
    errLe a b = true → errLe b c = true → errLe a c = true := by
  unfold errLe
  intro hab hbc
  simp only [Bool.not_eq_true'] at hab hbc ⊢
  by_contra hca
  simp only [Bool.not_eq_false] at hca
  cases hbc2 : pathLtB b.path c.path
  · have heq := pathLtB_conn _ _ hbc hbc2
    rw [heq] at hca
    rw [hab] at hca
    exact Bool.noConfusion hca
  · have hba := pathLtB_trans _ _ _ hbc2 hca
    rw [hab] at hba
    exact Bool.noConfusion hba

/-- Sortedness of the output of the Validator: the error sequence is
pairwise ordered by the path comparison. -/
theorem validationErrors_sorted (j : Json) : (validationErrors j).Pairwise errLEP := by
  haveI : IsTotal VErr errLEP := ⟨fun a b => errLe_total a b⟩
  haveI : IsTrans VErr errLEP := ⟨fun a b c => errLe_trans a b c⟩
  exact List.sorted_insertionSort errLEP (collectErrors j)

/-- The sorted error sequence is empty exactly when the unsorted collection
is. -/
theorem validationErrors_eq_nil_iff (j : Json) :
    validationErrors j = [] ↔ collectErrors j = [] := by
  constructor
  · intro h
    have hl := (List.perm_insertionSort errLEP (collectErrors j)).length_eq
    rw [show List.insertionSort errLEP (collectErrors j) = validationErrors j from rfl, h] at hl
    exact List.length_eq_zero.mp hl.symm
  · intro h
    rw [validationErrors, h]
    rfl

/-- Emptiness of one guarded error. -/
theorem eguard_eq_nil (b : Bool) (p : List PathSeg) (k : VKind) :
    eguard b p k = [] ↔ b = true := by
  cases b <;> simp [eguard]

/-- Emptiness of the additionalProperties errors. -/
theorem addlErrs_eq_nil (d : List String) (p : List PathSeg) (kvs : List (String × Json)) :
    addlErrs d p kvs = [] ↔ addlOk d kvs = true := by
  unfold addlErrs addlOk
  split <;> simp_all

/-- Emptiness of the required errors. -/
theorem reqErrs_eq_nil (req : List String) (p : List PathSeg) (kvs : List (String × Json)) :
    reqErrs req p kvs = [] ↔ reqOk req kvs = true := by
  induction req with
  | nil => simp [reqErrs, reqOk]
  | cons r rest ih =>
      unfold reqErrs reqOk at ih ⊢
      cases h : (kvs.lookup r).isSome <;>
        simp [List.filterMap_cons, h, ih]

/-- Emptiness of one property recursion. -/
theorem propErr_eq_nil {f : List PathSeg → Json → List VErr} {g : Json → Bool}
    (hfg : ∀ q x, f q x = [] ↔ g x = true) (n : String) (p : List PathSeg)
    (kvs : List (String × Json)) :
    propErr n f p kvs = [] ↔ propOk n g kvs = true := by
  unfold propErr propOk
  cases kvs.lookup n <;> simp [hfg]

/-- Emptiness of the element recursion of an array. -/
theorem childErrs_eq_nil {f : List PathSeg → Json → List VErr} {g : Json → Bool}
    (hfg : ∀ q x, f q x = [] ↔ g x = true) (p : List PathSeg) :
    ∀ (i : Nat) (xs : List Json), childErrs f p i xs = [] ↔ xs.all g = true := by
  intro i xs
  induction xs generalizing i with
  | nil => simp [childErrs]
  | cons x rest ih => simp [childErrs, hfg, ih]

/-- Emptiness for a plain string node. -/
theorem checkString_eq_nil : ∀ (p : List PathSeg) (j : Json),
    checkString p j = [] ↔ confString j = true := by
  intro p j
  simp [checkString, confString, eguard_eq_nil]

/-- Emptiness for a minLength string node. -/
theorem checkStringMin_eq_nil (n : Nat) : ∀ (p : List PathSeg) (j : Json),
    checkStringMin n p j = [] ↔ confStringMin n j = true := by
  intro p j
  simp [checkStringMin, confStringMin, eguard_eq_nil]

/-- Emptiness for an enum string node. -/
theorem checkEnumNode_eq_nil (vals : List String) : ∀ (p : List PathSeg) (j : Json),
    checkEnumNode vals p j = [] ↔ confEnumNode vals j = true := by
  intro p j
  simp [checkEnumNode, confEnumNode, eguard_eq_nil]

/-- Emptiness for a pattern string node. -/
theorem checkPatternNode_eq_nil (f : String → Bool) : ∀ (p : List PathSeg) (j : Json),
    checkPatternNode f p j = [] ↔ confPatternNode f j = true := by
  intro p j
  simp [checkPatternNode, confPatternNode, eguard_eq_nil]

/-- Emptiness for a number node with minimum 0. -/
theorem checkNumberMin0_eq_nil : ∀ (p : List PathSeg) (j : Json),
    checkNumberMin0 p j = [] ↔ confNumberMin0 j = true := by
  intro p j
  simp [checkNumberMin0, confNumberMin0, eguard_eq_nil]

/-- Emptiness for a number node with minimum 0 and maximum 100. -/
theorem checkNumberMin0Max100_eq_nil : ∀ (p : List PathSeg) (j : Json),
    checkNumberMin0Max100 p j = [] ↔ confNumberMin0Max100 j = true := by
  intro p j
  simp [checkNumberMin0Max100, confNumberMin0Max100, eguard_eq_nil, Bool.and_assoc, and_assoc]

/-- Emptiness for an integer node with minimum 0. -/
theorem checkIntegerMin0_eq_nil : ∀ (p : List PathSeg) (j : Json),
    checkIntegerMin0 p j = [] ↔ confIntegerMin0 j = true := by
  intro p j
  simp [checkIntegerMin0, confIntegerMin0, eguard_eq_nil]

/-- Emptiness for a boolean node. -/
theorem checkBoolean_eq_nil : ∀ (p : List PathSeg) (j : Json),
    checkBoolean p j = [] ↔ confBoolean j = true := by
  intro p j
  simp [checkBoolean, confBoolean, eguard_eq_nil]

/-- Emptiness for a plain array node. -/
theorem checkArrayOf_eq_nil {f : List PathSeg → Json → List VErr} {g : Json → Bool}
    (hfg : ∀ q x, f q x = [] ↔ g x = true) : ∀ (p : List PathSeg) (j : Json),
    checkArrayOf f p j = [] ↔ confArrayOf g j = true := by
  intro p j
  cases j <;> simp [checkArrayOf, confArrayOf, childErrs_eq_nil hfg]

/-- Emptiness for one attachment entry. -/
theorem checkFileItem_eq_nil : ∀ (p : List PathSeg) (j : Json),
    checkFileItem p j = [] ↔ confFileItem j = true := by
  intro p j
  cases j <;>
    simp [checkFileItem, confFileItem, addlErrs_eq_nil, reqErrs_eq_nil,
      propErr_eq_nil (checkEnumNode_eq_nil fileTypeEnumValues),
      propErr_eq_nil (checkStringMin_eq_nil 1),
      propErr_eq_nil (checkEnumNode_eq_nil statusEnumValues),
      propErr_eq_nil checkString_eq_nil, and_assoc]

/-- Emptiness for one contains entry of step2. -/
theorem containsErrs_eq_nil (c : String) : ∀ (p : List PathSeg) (j : Json),
    containsErrs c p j = [] ↔ containsOk c j = true := by
  intro p j
  cases j <;> simp [containsErrs, containsOk]

/-- Emptiness for a regions array. -/
theorem checkRegionsArray_eq_nil : ∀ (p : List PathSeg) (j : Json),
    checkRegionsArray p j = [] ↔ confRegionsArray j = true := by
  intro p j
  cases j <;>
    simp [checkRegionsArray, confRegionsArray, eguard_eq_nil,
      childErrs_eq_nil (checkEnumNode_eq_nil regionEnumValues), and_assoc]

/-- Emptiness for the files array of step2. -/
theorem checkFilesArray_eq_nil : ∀ (p : List PathSeg) (j : Json),
    checkFilesArray p j = [] ↔ confFilesArray j = true := by
  intro p j
  cases j <;>
    simp [checkFilesArray, confFilesArray, eguard_eq_nil,
      childErrs_eq_nil checkFileItem_eq_nil, and_assoc]

/-- Emptiness for step1. -/
theorem checkStep1_eq_nil : ∀ (p : List PathSeg) (j : Json),
    checkStep1 p j = [] ↔ confStep1 j = true := by
  intro p j
  cases j <;>
    simp [checkStep1, confStep1, addlErrs_eq_nil, reqErrs_eq_nil,
      propErr_eq_nil (checkStringMin_eq_nil 1),
      propErr_eq_nil checkRegionsArray_eq_nil,
      propErr_eq_nil (checkPatternNode_eq_nil matchesDueDate), and_assoc]

/-- Emptiness for step2. -/
theorem checkStep2_eq_nil : ∀ (p : List PathSeg) (j : Json),
    checkStep2 p j = [] ↔ confStep2 j = true := by
  intro p j
  cases j <;>
    simp [checkStep2, confStep2, addlErrs_eq_nil, reqErrs_eq_nil,
      propErr_eq_nil checkFilesArray_eq_nil, containsErrs_eq_nil, and_assoc]

/-- Emptiness for one copy_quality row. -/
theorem checkCopyQualityRow_eq_nil : ∀ (p : List PathSeg) (j : Json),
    checkCopyQualityRow p j = [] ↔ confCopyQualityRow j = true := by
  intro p j
  cases j <;>
    simp [checkCopyQualityRow, confCopyQualityRow, addlErrs_eq_nil, reqErrs_eq_nil,
      propErr_eq_nil (checkEnumNode_eq_nil languageEnumValues),
      propErr_eq_nil checkString_eq_nil,
      propErr_eq_nil (checkEnumNode_eq_nil statusEnumValues), and_assoc]

/-- Emptiness for one claim_risk row. -/
theorem checkClaimRiskRow_eq_nil : ∀ (p : List PathSeg) (j : Json),
    checkClaimRiskRow p j = [] ↔ confClaimRiskRow j = true := by
  intro p j
  cases j <;>
    simp [checkClaimRiskRow, confClaimRiskRow, addlErrs_eq_nil, reqErrs_eq_nil,
      propErr_eq_nil (checkEnumNode_eq_nil languageEnumValues),
      propErr_eq_nil checkString_eq_nil,
      propErr_eq_nil (checkEnumNode_eq_nil riskLevelEnumValues),
      propErr_eq_nil checkRegionsArray_eq_nil,
      propErr_eq_nil (checkEnumNode_eq_nil actionEnumValues),
      propErr_eq_nil (checkEnumNode_eq_nil statusEnumValues), and_assoc]

/-- Emptiness for one label_claim_conversion row. -/
theorem checkLabelClaimRow_eq_nil : ∀ (p : List PathSeg) (j : Json),
    checkLabelClaimRow p j = [] ↔ confLabelClaimRow j = true := by
  intro p j
  cases j <;>
    simp [checkLabelClaimRow, confLabelClaimRow, addlErrs_eq_nil, reqErrs_eq_nil,
      propErr_eq_nil (checkStringMin_eq_nil 1),
      propErr_eq_nil checkNumberMin0_eq_nil,
      propErr_eq_nil checkBoolean_eq_nil,
      propErr_eq_nil (checkEnumNode_eq_nil statusEnumValues),
      propErr_eq_nil checkString_eq_nil, and_assoc]

/-- Emptiness for one artwork_match row. -/
theorem checkArtworkMatchRow_eq_nil : ∀ (p : List PathSeg) (j : Json),
    checkArtworkMatchRow p j = [] ↔ confArtworkMatchRow j = true := by
  intro p j
  cases j <;>
    simp [checkArtworkMatchRow, confArtworkMatchRow, addlErrs_eq_nil, reqErrs_eq_nil,
      propErr_eq_nil checkString_eq_nil,
      propErr_eq_nil checkBoolean_eq_nil, and_assoc]

/-- Emptiness for one font_size row. -/
theorem checkFontSizeRow_eq_nil : ∀ (p : List PathSeg) (j : Json),
    checkFontSizeRow p j = [] ↔ confFontSizeRow j = true := by
  intro p j
  cases j <;>
    simp [checkFontSizeRow, confFontSizeRow, addlErrs_eq_nil, reqErrs_eq_nil,
      propErr_eq_nil checkString_eq_nil,
      propErr_eq_nil checkNumberMin0_eq_nil,
      propErr_eq_nil (checkEnumNode_eq_nil methodEnumValues),
      propErr_eq_nil (checkEnumNode_eq_nil statusEnumValues), and_assoc]

/-- Emptiness for one barcode row. -/
theorem checkBarcodeRow_eq_nil : ∀ (p : List PathSeg) (j : Json),
    checkBarcodeRow p j = [] ↔ confBarcodeRow j = true := by
  intro p j
  cases j <;>
    simp [checkBarcodeRow, confBarcodeRow, addlErrs_eq_nil, reqErrs_eq_nil,
      propErr_eq_nil (checkEnumNode_eq_nil symbologyEnumValues),
      propErr_eq_nil (checkPatternNode_eq_nil matchesEncodedDigits),
      propErr_eq_nil checkBoolean_eq_nil,
      propErr_eq_nil checkNumberMin0_eq_nil,
      propErr_eq_nil checkIntegerMin0_eq_nil,
      propErr_eq_nil checkNumberMin0Max100_eq_nil,
      propErr_eq_nil (checkEnumNode_eq_nil scanTestEnumValues), and_assoc]

/-- Emptiness for one visual_snapshots row. -/
theorem checkVisualSnapshotRow_eq_nil : ∀ (p : List PathSeg) (j : Json),
    checkVisualSnapshotRow p j = [] ↔ confVisualSnapshotRow j = true := by
  intro p j
  cases j <;>
    simp [checkVisualSnapshotRow, confVisualSnapshotRow, addlErrs_eq_nil, reqErrs_eq_nil,
      propErr_eq_nil (checkPatternNode_eq_nil matchesSnapshotId),
      propErr_eq_nil checkString_eq_nil,
      propErr_eq_nil (checkArrayOf_eq_nil checkString_eq_nil),
      propErr_eq_nil (checkEnumNode_eq_nil statusAfterFixEnumValues), and_assoc]

/-- Emptiness for one summary row. -/
theorem checkSummaryRow_eq_nil : ∀ (p : List PathSeg) (j : Json),
    checkSummaryRow p j = [] ↔ confSummaryRow j = true := by
  intro p j
  cases j <;>
    simp [checkSummaryRow, confSummaryRow, addlErrs_eq_nil, reqErrs_eq_nil,
      propErr_eq_nil checkString_eq_nil,
      propErr_eq_nil checkIntegerMin0_eq_nil,
      propErr_eq_nil checkNumberMin0Max100_eq_nil, and_assoc]

/-- Emptiness for the score_summary object. -/
theorem checkScoreSummary_eq_nil : ∀ (p : List PathSeg) (j : Json),
    checkScoreSummary p j = [] ↔ confScoreSummary j = true := by
  intro p j
  cases j <;>
    simp [checkScoreSummary, confScoreSummary, addlErrs_eq_nil, reqErrs_eq_nil,
      propErr_eq_nil (checkArrayOf_eq_nil checkSummaryRow_eq_nil),
      propErr_eq_nil (checkArrayOf_eq_nil checkString_eq_nil), and_assoc]

/-- Emptiness for step3. -/
theorem checkStep3_eq_nil : ∀ (p : List PathSeg) (j : Json),
    checkStep3 p j = [] ↔ confStep3 j = true := by
  intro p j
  cases j <;>
    simp [checkStep3, confStep3, addlErrs_eq_nil, reqErrs_eq_nil,
      propErr_eq_nil (checkArrayOf_eq_nil checkCopyQualityRow_eq_nil),
      propErr_eq_nil (checkArrayOf_eq_nil checkClaimRiskRow_eq_nil),
      propErr_eq_nil (checkArrayOf_eq_nil checkLabelClaimRow_eq_nil),
      propErr_eq_nil (checkArrayOf_eq_nil checkArtworkMatchRow_eq_nil),
      propErr_eq_nil (checkArrayOf_eq_nil checkFontSizeRow_eq_nil),
      propErr_eq_nil (checkArrayOf_eq_nil checkBarcodeRow_eq_nil),
      propErr_eq_nil (checkArrayOf_eq_nil checkVisualSnapshotRow_eq_nil),
      propErr_eq_nil checkScoreSummary_eq_nil, and_assoc]

/-- Emptiness for step4. -/
theorem checkStep4_eq_nil : ∀ (p : List PathSeg) (j : Json),
    checkStep4 p j = [] ↔ confStep4 j = true := by
  intro p j
  cases j <;>
    simp [checkStep4, confStep4, addlErrs_eq_nil,
      propErr_eq_nil checkString_eq_nil,
      propErr_eq_nil checkBoolean_eq_nil, and_assoc]

/-- Emptiness for one constraint row. -/
theorem checkConstraintRow_eq_nil : ∀ (p : List PathSeg) (j : Json),
    checkConstraintRow p j = [] ↔ confConstraintRow j = true := by
  intro p j
  cases j <;>
    simp [checkConstraintRow, confConstraintRow, addlErrs_eq_nil, reqErrs_eq_nil,
      propErr_eq_nil checkString_eq_nil,
      propErr_eq_nil (checkEnumNode_eq_nil sourceEnumValues), and_assoc]

/-- Emptiness for step5. -/
theorem checkStep5_eq_nil : ∀ (p : List PathSeg) (j : Json),
    checkStep5 p j = [] ↔ confStep5 j = true := by
  intro p j
  cases j <;>
    simp [checkStep5, confStep5, addlErrs_eq_nil, reqErrs_eq_nil,
      propErr_eq_nil (checkArrayOf_eq_nil checkConstraintRow_eq_nil), and_assoc]

/-- Emptiness of the whole collection agrees with conformance. -/
theorem collectErrors_eq_nil (j : Json) : collectErrors j = [] ↔ conforms j = true := by
  cases j <;>
    simp [collectErrors, conforms, addlErrs_eq_nil, reqErrs_eq_nil,
      propErr_eq_nil (checkPatternNode_eq_nil matchesSemver),
      propErr_eq_nil checkStep1_eq_nil,
      propErr_eq_nil checkStep2_eq_nil,
      propErr_eq_nil checkStep3_eq_nil,
      propErr_eq_nil checkStep4_eq_nil,
      propErr_eq_nil checkStep5_eq_nil, and_assoc]

/-- The error sequence of the Validator is empty exactly on conforming
payloads. -/
theorem validationErrors_empty_iff (j : Json) :
    validationErrors j = [] ↔ conforms j = true :=
  (validationErrors_eq_nil_iff j).trans (collectErrors_eq_nil j)

/-- Unfolding of a separator join into a head and separator-prefixed
tail. -/
theorem joinSep_eq (s : String) : ∀ (a : String) (l : List String),
    joinSep s (a :: l) = a ++ concatList (l.map (fun y => s ++ y)) := by
  intro a l
  induction l generalizing a with
  | nil => simp [joinSep, concatList]
  | cons b rest ih =>
      simp [joinSep, concatList, ih b, String.append_assoc]

/-- Concatenation distributes over list append. -/
theorem concatList_append : ∀ (xs ys : List String),
    concatList (xs ++ ys) = concatList xs ++ concatList ys := by
  intro xs ys
  induction xs with
  | nil => simp [concatList]
  | cons a rest ih => simp [concatList, ih, String.append_assoc]

/-- Every rendered table is its title, one blank line, then the body, for
any row set. -/
theorem printTable_split (t : String) (rows : List (List String)) :
    _print_table t rows = t ++ "\n\n" ++ tableBody rows := by
  have h3 : ∀ x : String, "\n" ++ ("\n" ++ x) = "\n\n" ++ x := by
    intro x
    rw [← String.append_assoc]
    rfl
  simp [_print_table, tableBody, joinSep_eq, concatList, String.append_assoc,
    String.append_empty, h3]

/-- Claim C1, counterexample: the empty JSON object is parseable and
structurally non-conforming, yet `validate_payload` raises (the error
outcome) instead of returning a violation collection. -/
theorem C1_counterexample :
    conforms (Json.obj []) = false ∧
    exceptIsOk (validate_payload (Json.obj [])) = false := by
  decide

/-- Claim C1, amended: for a parseable candidate payload,
`validate_payload` returns the payload exactly when it conforms to the
schema; on any structurally non-conforming payload it raises a ValueError
aggregating the violations, so raising is not reserved to the parse
boundary. -/
theorem C1_amended (j : Json) :
    (validate_payload j = Except.ok j ↔ conforms j = true) ∧
    exceptIsOk (validate_payload j) = conforms j := by
  have hiff := validationErrors_empty_iff j
  by_cases h : validationErrors j = []
  · have hc : conforms j = true := hiff.mp h
    constructor
    · simp [validate_payload, h, hc]
    · simp [validate_payload, h, hc, exceptIsOk]
  · have hc : conforms j = false := by
      cases hcv : conforms j
      · rfl
      · exact absurd (hiff.mpr hcv) h
    have h2 : (validationErrors j).isEmpty = false := by
      cases hve : validationErrors j
      · exact absurd hve h
      · rfl
    constructor
    · simp [validate_payload, h2, hc]
    · simp [validate_payload, h2, hc, exceptIsOk]

/-- Claim C2: the labels us, US, a padded US, and UNITED STATES all
normalize to the same canonical key as USA and receive the same flag
symbol; an unrecognized label such as MARS receives the fallback symbol
with its original text preserved in the cell. -/
theorem C2_region_normalization :
    regionFlag "us" = regionFlag "USA" ∧
    regionFlag "US" = regionFlag "USA" ∧
    regionFlag " US " = regionFlag "USA" ∧
    regionFlag "UNITED STATES" = regionFlag "USA" ∧
    regionFlag "USA" = "🇺🇸" ∧
    regionFlag "MARS" = (REGION_FLAGS.lookup "OTHER").getD "" ∧
    _format_regions_with_flags ["MARS"] = "🌐 MARS" ∧
    _format_regions_with_flags ["us", "US", " US ", "UNITED STATES"] =
      "🇺🇸 us, 🇺🇸 US, 🇺🇸  US, 🇺🇸 UNITED STATES" := by
  decide

/-- Claim C3: the error sequence of the Validator is empty exactly on
conforming payloads, is always sorted by path (lexicographic over path
segments), and on a payload with three independent violations all three
are enumerated with their correct paths. -/
theorem C3_validator_completeness :
    (∀ j : Json, validationErrors j = [] ↔ conforms j = true) ∧
    (∀ j : Json, (validationErrors j).Pairwise errLEP) ∧
    validationErrors docThreeViolationsJson =
      [⟨[PathSeg.key "step1", PathSeg.key "due_date"], VKind.patternErr⟩,
       ⟨[PathSeg.key "step1", PathSeg.key "project_name"], VKind.minLengthErr 1⟩,
       ⟨[PathSeg.key "step2", PathSeg.key "files"], VKind.minItemsErr 2⟩] :=
  ⟨validationErrors_empty_iff, validationErrors_sorted, by decide⟩

/-- Claim C4, counterexample: a Document that is valid in every other
respect but carries version draft, or version 1.0, fails validation, so
not every string value for version passes. -/
theorem C4_counterexample :
    conforms (docWithVersion (Json.str "draft")) = false ∧
    conforms (docWithVersion (Json.str "1.0")) = false := by
  decide

/-- Claim C4, amended: version is optional and omitting it passes, but a
present version string passes exactly when it matches the three-component
digit pattern; a non-matching value such as draft yields one pattern
violation at the version path. -/
theorem C4_amended :
    (∀ s : String, conforms (docWithVersion (Json.str s)) = matchesSemver s) ∧
    conforms docMinJson = true ∧
    conforms (docWithVersion (Json.str "1.0.0")) = true ∧
    validationErrors (docWithVersion (Json.str "draft")) =
      [⟨[PathSeg.key "version"], VKind.patternErr⟩] := by
  refine ⟨?_, by decide, by decide, by decide⟩
  intro s
  simp +decide [conforms, docWithVersion, addlOk, extraKeys, reqOk, propOk, confPatternNode,
    strPatOk, isStr, fileItemJson, step3EmptyJson, scoreSummaryEmptyJson, confStep1,
    confStep2, confStep3, confStep4, confStep5, confStringMin, confString, confEnumNode,
    confRegionsArray, confFilesArray, confFileItem, confScoreSummary, confArrayOf,
    containsOk, fileTypeConstOk, jsonNoDup, jsonBEq, strEnumOk, strMinLenOk,
    matchesDueDate, stripFinalNewlineChars, splitOnChar, digits1, List.lookup]

/-- Claim C5: the code accepts a files array whose two entries are both of
type Other with zero errors, because the two contains rules are attached to
the step2 object where the contains keyword is skipped; the minimum-count
rule does fire on a single-entry array, and a list with one entry of each
required type plus extras passes. -/
theorem C5_code_accepts_missing_variant :
    conforms docFilesBothOtherJson = true ∧
    validationErrors docFilesBothOtherJson = [] ∧
    validationErrors docFilesOneJson =
      [⟨[PathSeg.key "step2", PathSeg.key "files"], VKind.minItemsErr 2⟩] ∧
    conforms docFilesExtrasJson = true ∧
    conforms docMinJson = true := by
  decide

/-- Claim C6: the rendered output of a Document is the blank-line-joined
concatenation of its table artifacts in document order with one trailing
newline; the artifact titles are exactly the fixed section titles, with
step4 included exactly when present; and every artifact begins with its
title, a blank line, and its header and separator lines even with zero
data rows. -/
theorem C6_render_structure (p : Document) :
    renderDoc p = joinSep "\n\n" ((tableSpecs p).map (fun t => _print_table t.1 t.2)) ++ "\n" ∧
    (tableSpecs p).map Prod.fst =
      (if p.step4.isSome then allTitlesWith4 else allTitlesWithout4) ∧
    (tableSpecs p).map (fun t => _print_table t.1 t.2) =
      (tableSpecs p).map (fun t => t.1 ++ "\n\n" ++ tableBody t.2) := by
  refine ⟨?_, ?_, ?_⟩
  · rcases p with ⟨v, s1, s2, s3, o4, s5⟩
    cases o4 <;>
      simp [renderDoc, render_step3, render_step3_score_summary, tableSpecs,
        render_step1, render_step2, render_step3_copy_quality, render_step3_claim_risk,
        render_step3_label_claim_conversion, render_step3_artwork_match, render_step3_font_size,
        render_step3_barcode, render_step3_visual_snapshots, render_step4, render_step5,
        joinSep_eq, concatList, String.append_assoc, String.append_empty]
  · rcases p with ⟨v, s1, s2, s3, o4, s5⟩
    cases o4 <;> simp [tableSpecs, allTitlesWith4, allTitlesWithout4]
  · simp [printTable_split]

/-- Claim C7: for every title, header row and ordered data rows, the table
builder emits exactly the title, a blank line, the header line, a separator
with one placeholder per header column, then one delimiter-joined line per
data row in the given order. -/
theorem C7_print_table_contract (title : String) (hdr : List String)
    (data : List (List String)) :
    _print_table title (hdr :: data) =
      title ++ "\n" ++ "" ++ "\n" ++ ("| " ++ joinSep " | " hdr ++ " |") ++ "\n" ++
        ("|" ++ joinSep "|" (List.replicate hdr.length "---") ++ "|") ++
        concatList (data.map (fun r => "\n" ++ ("| " ++ joinSep " | " r ++ " |"))) := by
  simp [-String.reduceAppend, _print_table, joinSep_eq, concatList, Function.comp_def,
    String.append_assoc, String.append_empty]

/-- Claim C8, counterexample: region normalization applied twice does not
equal normalization applied once on every string; the label consisting of a
period, a space and US normalizes to a space-led US, which normalizes again
to USA. -/
theorem C8_counterexample :
    normalizeRegionKey (normalizeRegionKey ". US") ≠ normalizeRegionKey ". US" := by
  decide

/-- Claim C8, amended: normalization is idempotent on the canonical keys of
the flag table, which it returns unchanged, but applying it twice is not
the same as applying it once for every input string. -/
theorem C8_amended :
    normalizeRegionKey "USA" = "USA" ∧
    normalizeRegionKey "EU" = "EU" ∧
    normalizeRegionKey "UK" = "UK" ∧
    normalizeRegionKey "CA" = "CA" ∧
    normalizeRegionKey "OTHER" = "OTHER" := by
  decide

/-- Claim C9: rendering is deterministic; the output is a function of the
Document value alone, so two runs of the pipeline on the same input give
byte-identical text. -/
theorem C9_render_deterministic (d1 d2 : Document) (h : d1 = d2) :
    renderDoc d1 = renderDoc d2 :=
  congrArg renderDoc h

/-- Witness for claim C9 at the concrete minimal Document. -/
theorem C9_render_deterministic_witness : renderDoc docR = renderDoc docR :=
  C9_render_deterministic docR docR rfl

/-- Claim C10: AU is a schema-valid region enum member with no entry in
the flag table or the alias table, so it renders with the fallback globe
symbol before the literal label, the same symbol as Other and as the
unrecognized label MARS. -/
theorem C10_AU_fallback :
    regionEnumValues.contains "AU" = true ∧
    REGION_FLAGS.lookup "AU" = none ∧
    REGION_ALIASES.lookup "AU" = none ∧
    regionFlag "AU" = "🌐" ∧
    _format_regions_with_flags ["AU"] = "🌐 AU" ∧
    regionFlag "AU" = regionFlag "Other" ∧
    regionFlag "AU" = regionFlag "MARS" := by
  decide
